import Mathlib

/-!
Formal model of the cloud-debug evaluation pipeline implemented in
`src/evaluator.py`: the problem-fixture loader (`Problem.load`), the prompt
assembly (`get_context_for_agent`, `create_judge_prompt`), the judge client
(`evaluate_solution`, `parse_judge_response`), the orchestrator
(`evaluate_with_agent`, `evaluate_all_problems`) and the report generator
(`generate_report`, `generate_md_report`).

Modelling conventions:
* Python `float` is IEEE-754 binary64.  Doubles are represented by their exact
  rational value and every arithmetic operation is followed by `roundDouble`,
  round-to-nearest, ties-to-even at 53 significant bits (`fmul`, `fadd`,
  `fdiv`, `intToDouble`).  Subnormals and overflow to infinity are outside the
  range exercised here and are not modelled.
* Python `int(x)` on a float is truncation toward zero (`pyInt`).
* The float literals `0.4` and `0.2` of the source become the rational values
  of the binary64 doubles nearest to 2/5 and 1/5 (`c04`, `c02`).
* `json.loads` is modelled by `json_loads`, a recursive-descent parser for
  JSON objects/arrays/strings/numbers/booleans/null with the strict-mode
  behaviour of Python's default decoder (control characters in strings are
  rejected, trailing data is rejected, duplicate keys keep the last value).
  `NaN`/`Infinity` literals and the exact decoding of surrogate pairs are not
  modelled.
* The filesystem around one problem directory is a `Fixture`; a missing file
  or directory is `none`.  Exceptions are `Except` values.
* `datetime.now()` and the judge model name are threaded as explicit `now` /
  `model` arguments; the external LLM call is an oracle function argument.

All definitions are computable with kernel-reducible primitives (`mkRat`,
`Rat.num`, `Rat.den`, `Int.floor`, `Int`/`Nat` arithmetic), so concrete runs
of the model can be checked by `decide`.
-/

set_option maxRecDepth 1000000

namespace CloudDebugEval

/-! ### Exact rational arithmetic on kernel-friendly primitives -/

/-- Rational multiplication, written through `mkRat` so that the kernel can
evaluate it on literals. -/
def qmul (a b : ℚ) : ℚ := mkRat (a.num * b.num) (a.den * b.den)

/-- Rational addition through `mkRat`. -/
def qadd (a b : ℚ) : ℚ := mkRat (a.num * b.den + b.num * a.den) (a.den * b.den)

/-- Rational negation through `mkRat`. -/
def qneg (a : ℚ) : ℚ := mkRat (-a.num) a.den

/-- Rational inverse through `mkRat` (0 maps to 0). -/
def qinv (a : ℚ) : ℚ :=
  if a.num < 0 then mkRat (-(a.den : ℤ)) a.num.natAbs else mkRat a.den a.num.toNat

/-- Rational division through `mkRat`. -/
def qdiv (a b : ℚ) : ℚ := qmul a (qinv b)

/-- Integer powers of two as a rational. -/
def pow2 (e : ℤ) : ℚ := if 0 ≤ e then mkRat (2 ^ e.toNat) 1 else mkRat 1 (2 ^ (-e).toNat)

/-! ### The binary64 rounding model -/

/-- Fuel-driven floor of the base-2 logarithm on naturals; structural in the
fuel so that the kernel can evaluate it. -/
def log2F : Nat → Nat → Nat
  | 0, _ => 0
  | fuel + 1, n => if n < 2 then 0 else log2F fuel (n / 2) + 1

/-- Floor of the base-2 logarithm of the fraction `a / b` (for `1 ≤ a`,
`1 ≤ b`). -/
def ilog2Nat (a b : ℕ) : ℤ :=
  if b ≤ a then (log2F a (a / b) : ℤ)
  else -((log2F b ((b - 1) / a) + 1 : ℕ) : ℤ)

/-- Floor of the base-2 logarithm of a positive rational (unspecified on
non-positive input). -/
def ratIlog2 (q : ℚ) : ℤ := ilog2Nat q.num.toNat q.den

/-- Round a rational to the nearest integer, ties to even. -/
def roundHalfEvenQ (q : ℚ) : ℤ :=
  let f := ⌊q⌋
  let r := qadd q (qneg (mkRat f 1))
  if r.num * 2 < (r.den : ℤ) then f
  else if (r.den : ℤ) < r.num * 2 then f + 1
  else if f % 2 = 0 then f else f + 1

/-- Round a positive rational to 53 significant bits (round to nearest, ties
to even): the binary64 rounding step. -/
def roundDoublePos (q : ℚ) : ℚ :=
  let e : ℤ := ratIlog2 q - 52
  qmul (mkRat (roundHalfEvenQ (qmul q (pow2 (-e)))) 1) (pow2 e)

/-- Round a rational to the exact value of the nearest IEEE-754 binary64
double (overflow and subnormals not modelled). -/
def roundDouble (q : ℚ) : ℚ :=
  if q.num < 0 then qneg (roundDoublePos (qneg q))
  else if q.num = 0 then 0
  else roundDoublePos q

/-- Python `int(x)` on a float value: truncation toward zero. -/
def pyInt (q : ℚ) : ℤ := if q.num < 0 then -⌊qneg q⌋ else ⌊q⌋

/-- The exact rational value of the binary64 double written `0.4` in the
source. -/
def c04 : ℚ := mkRat 7205759403792794 (2 ^ 54)

/-- The exact rational value of the binary64 double written `0.2` in the
source. -/
def c02 : ℚ := mkRat 3602879701896397 (2 ^ 54)

/-- Binary64 multiplication. -/
def fmul (x y : ℚ) : ℚ := roundDouble (qmul x y)

/-- Binary64 addition. -/
def fadd (x y : ℚ) : ℚ := roundDouble (qadd x y)

/-- Binary64 division. -/
def fdiv (x y : ℚ) : ℚ := roundDouble (qdiv x y)

/-- Conversion of a Python `int` to a float, as in `n * 0.4`. -/
def intToDouble (n : ℤ) : ℚ := roundDouble (mkRat n 1)

/-! ### Python string primitives -/

/-- Python `str.find` for a single character: first index, or -1. -/
def pyFind (cs : List Char) (c : Char) : ℤ :=
  match cs.findIdx? (fun x => x = c) with
  | some i => (i : ℤ)
  | none => -1

/-- Python `str.rfind` for a single character: last index, or -1. -/
def pyRFind (cs : List Char) (c : Char) : ℤ :=
  match cs.reverse.findIdx? (fun x => x = c) with
  | some i => ((cs.length - 1 - i : ℕ) : ℤ)
  | none => -1

/-- Python slice `s[i:j]` for `0 ≤ i`, `0 ≤ j` (clamping at the ends, empty
when `j ≤ i`). -/
def pySlice (cs : List Char) (i j : ℤ) : List Char :=
  (cs.take j.toNat).drop i.toNat

/-- The character `{`. -/
def lbrace : Char := Char.ofNat 123

/-- The character `}`. -/
def rbrace : Char := Char.ofNat 125

/-! ### JSON values and `json.loads` -/

/-- JSON values as produced by `json.loads` (numbers keep Python's int/float
distinction). -/
inductive Jval where
  | jnull : Jval
  | jbool : Bool → Jval
  | jint : ℤ → Jval
  | jfloat : ℚ → Jval
  | jstr : String → Jval
  | jarr : List Jval → Jval
  | jobj : List (String × Jval) → Jval

/-- Lookup in a decoded JSON object; later duplicates win, as in a Python
dict built by the decoder. -/
def jget (fields : List (String × Jval)) (k : String) : Option Jval :=
  fields.foldl (fun acc p => if p.1 = k then some p.2 else acc) none

/-- Whitespace skipped by the JSON decoder. -/
def skipWs : List Char → List Char
  | c :: cs =>
    if c = ' ' ∨ c = '\t' ∨ c = '\n' ∨ c = '\r' then skipWs cs else c :: cs
  | [] => []

/-- Decimal digit value. -/
def digitVal (c : Char) : Option ℕ :=
  if '0' ≤ c ∧ c ≤ '9' then some (c.toNat - 48) else none

/-- Hexadecimal digit value. -/
def hexVal (c : Char) : Option ℕ :=
  if '0' ≤ c ∧ c ≤ '9' then some (c.toNat - 48)
  else if 'a' ≤ c ∧ c ≤ 'f' then some (c.toNat - 87)
  else if 'A' ≤ c ∧ c ≤ 'F' then some (c.toNat - 55)
  else none

/-- Take a maximal run of decimal digits. -/
def takeDigits : List Char → (List ℕ × List Char)
  | c :: cs =>
    match digitVal c with
    | some d =>
      let (ds, rest) := takeDigits cs
      (d :: ds, rest)
    | none => ([], c :: cs)
  | [] => ([], [])

/-- Fold a digit run into a natural number. -/
def digitsToNat (ds : List ℕ) : ℕ := ds.foldl (fun acc d => acc * 10 + d) 0

/-- Body of a JSON string literal after the opening quote; returns the decoded
characters and the input after the closing quote.  Raw control characters are
rejected (the decoder's default strict mode). -/
def parseStringBody : List Char → Option (List Char × List Char)
  | [] => none
  | c :: cs =>
    if c = '"' then some ([], cs)
    else if c = '\\' then
      match cs with
      | [] => none
      | e :: cs' =>
        if e = 'u' then
          match cs' with
          | h1 :: h2 :: h3 :: h4 :: rest =>
            match hexVal h1, hexVal h2, hexVal h3, hexVal h4 with
            | some a, some b, some c3, some d =>
              match parseStringBody rest with
              | some (body, rest') =>
                some (Char.ofNat (((a * 16 + b) * 16 + c3) * 16 + d) :: body, rest')
              | none => none
            | _, _, _, _ => none
          | _ => none
        else
          match
            (if e = '"' then some '"'
             else if e = '\\' then some '\\'
             else if e = '/' then some '/'
             else if e = 'b' then some (Char.ofNat 8)
             else if e = 'f' then some (Char.ofNat 12)
             else if e = 'n' then some '\n'
             else if e = 'r' then some '\r'
             else if e = 't' then some '\t'
             else none) with
          | some d =>
            match parseStringBody cs' with
            | some (body, rest) => some (d :: body, rest)
            | none => none
          | none => none
    else if c.toNat < 32 then none
    else
      match parseStringBody cs with
      | some (body, rest) => some (c :: body, rest)
      | none => none

/-- An exponent suffix after `e`/`E`: optional sign, then at least one
digit. -/
def parseExpSuffix (cs : List Char) : Option (ℤ × List Char) :=
  match cs with
  | '+' :: cs2 =>
    match takeDigits cs2 with
    | ([], _) => none
    | (es, r) => some ((digitsToNat es : ℤ), r)
  | '-' :: cs2 =>
    match takeDigits cs2 with
    | ([], _) => none
    | (es, r) => some (-(digitsToNat es : ℤ), r)
  | cs2 =>
    match takeDigits cs2 with
    | ([], _) => none
    | (es, r) => some ((digitsToNat es : ℤ), r)

/-- Scale a mantissa by a decimal exponent. -/
def applyExp (m : ℚ) (ex : ℤ) : ℚ :=
  if 0 ≤ ex then qmul m (mkRat ((10 : ℤ) ^ ex.toNat) 1)
  else qmul m (mkRat 1 ((10 : ℕ) ^ (-ex).toNat))

/-- A JSON number (after an optional leading minus sign handled by the
caller): integer part without leading zeros, optional fraction, optional
exponent.  Returns the exact rational value and whether it is a float. -/
def parseNumberBody (cs : List Char) : Option ((ℚ × Bool) × List Char) :=
  match takeDigits cs with
  | ([], _) => none
  | (d0 :: dtl, rest) =>
    if d0 = 0 ∧ dtl ≠ [] then none
    else
      let ds := d0 :: dtl
      match rest with
      | '.' :: cs2 =>
        match takeDigits cs2 with
        | ([], _) => none
        | (fs, rest2) =>
          let mant : ℚ :=
            mkRat ((digitsToNat ds : ℤ) * (10 : ℤ) ^ fs.length + (digitsToNat fs : ℤ))
              ((10 : ℕ) ^ fs.length)
          match rest2 with
          | e :: cs3 =>
            if e = 'e' ∨ e = 'E' then
              match parseExpSuffix cs3 with
              | some (ex, r) => some ((applyExp mant ex, true), r)
              | none => some ((mant, true), rest2)
            else some ((mant, true), rest2)
          | [] => some ((mant, true), rest2)
      | e :: cs3 =>
        let mant : ℚ := mkRat (digitsToNat ds : ℤ) 1
        if e = 'e' ∨ e = 'E' then
          match parseExpSuffix cs3 with
          | some (ex, r) => some ((applyExp mant ex, true), r)
          | none => some ((mant, false), rest)
        else some ((mant, false), rest)
      | [] => some ((mkRat (digitsToNat ds : ℤ) 1, false), rest)

/-! The JSON grammar: values, object members, array items.  The `fuel`
argument dominates the recursion depth. -/

mutual

def parseVal : Nat → List Char → Option (Jval × List Char)
  | 0, _ => none
  | fuel + 1, cs =>
    match skipWs cs with
    | [] => none
    | c :: cs' =>
      if c = '"' then
        match parseStringBody cs' with
        | some (body, rest) => some (.jstr (String.mk body), rest)
        | none => none
      else if c = lbrace then
        parseMembers fuel (skipWs cs')
      else if c = '[' then
        parseItems fuel (skipWs cs')
      else if c = 't' then
        match cs' with
        | 'r' :: 'u' :: 'e' :: rest => some (.jbool true, rest)
        | _ => none
      else if c = 'f' then
        match cs' with
        | 'a' :: 'l' :: 's' :: 'e' :: rest => some (.jbool false, rest)
        | _ => none
      else if c = 'n' then
        match cs' with
        | 'u' :: 'l' :: 'l' :: rest => some (.jnull, rest)
        | _ => none
      else if c = '-' then
        match parseNumberBody cs' with
        | some ((v, isFloat), rest) =>
          some (if isFloat then .jfloat (qneg v) else .jint (-v.num), rest)
        | none => none
      else
        match parseNumberBody (c :: cs') with
        | some ((v, isFloat), rest) =>
          some (if isFloat then .jfloat v else .jint v.num, rest)
        | none => none

def parseMembers : Nat → List Char → Option (Jval × List Char)
  | 0, _ => none
  | fuel + 1, cs =>
    match cs with
    | [] => none
    | c :: cs' =>
      if c = rbrace then some (.jobj [], cs')
      else parseMembersRest fuel [] (c :: cs')

def parseMembersRest : Nat → List (String × Jval) → List Char →
    Option (Jval × List Char)
  | 0, _, _ => none
  | fuel + 1, acc, cs =>
    match cs with
    | '"' :: cs' =>
      match parseStringBody cs' with
      | some (keyChars, afterKey) =>
        match skipWs afterKey with
        | ':' :: afterColon =>
          match parseVal fuel afterColon with
          | some (v, afterVal) =>
            let acc' := acc ++ [(String.mk keyChars, v)]
            match skipWs afterVal with
            | c2 :: rest2 =>
              if c2 = rbrace then some (.jobj acc', rest2)
              else if c2 = ',' then parseMembersRest fuel acc' (skipWs rest2)
              else none
            | [] => none
          | none => none
        | _ => none
      | none => none
    | _ => none

def parseItems : Nat → List Char → Option (Jval × List Char)
  | 0, _ => none
  | fuel + 1, cs =>
    match cs with
    | [] => none
    | c :: cs' =>
      if c = ']' then some (.jarr [], cs')
      else parseItemsRest fuel [] (c :: cs')

def parseItemsRest : Nat → List Jval → List Char → Option (Jval × List Char)
  | 0, _, _ => none
  | fuel + 1, acc, cs =>
    match parseVal fuel cs with
    | some (v, afterVal) =>
      let acc' := acc ++ [v]
      match skipWs afterVal with
      | c2 :: rest2 =>
        if c2 = ']' then some (.jarr acc', rest2)
        else if c2 = ',' then parseItemsRest fuel acc' rest2
        else none
      | [] => none
    | none => none

end

/-- Model of `json.loads`: parse one value and insist the rest of the input is
whitespace. -/
def json_loads (cs : List Char) : Option Jval :=
  match parseVal (2 * cs.length + 2) cs with
  | some (v, rest) => if skipWs rest = [] then some v else none
  | none => none

/-! ### The data model of the pipeline -/

/-- A cloud debugging problem (`Problem` dataclass; the `path` field is the
fixture location and carries no further information here). -/
structure Problem where
  name : String
  problem_md : String
  solution_md : String
  logs : List (String × String)
  configs : List (String × String)
deriving DecidableEq

/-- Results from LLM judge evaluation (`EvaluationResult` dataclass).  Scores
are Python ints. -/
structure EvaluationResult where
  problem_name : String
  agent_name : String
  timestamp : String
  diagnosis_accuracy : ℤ
  solution_correctness : ℤ
  investigation_quality : ℤ
  overall_score : ℤ
  agent_solution : String
  expected_solution : String
  judge_feedback : String
  judge_reasoning : String
  judge_model : String
deriving DecidableEq

/-- One problem directory on disk: `none` marks an absent file or absent
subdirectory; the lists hold `(file name, raw text)` pairs in listing order
(`logs/*.log` resp. `configs/*.yaml`). -/
structure Fixture where
  name : String
  problem_md : Option String
  solution_md : Option String
  logs_dir : Option (List (String × String))
  configs_dir : Option (List (String × String))
deriving DecidableEq

/-- Model of `Problem.load`: read `problem.md` and `solution.md` (an absent file raises
`FileNotFoundError`), then collect the optional `logs/` and `configs/`
artifacts, an absent subdirectory yielding an empty mapping. -/
def Problem.load (f : Fixture) : Except String Problem :=
  match f.problem_md with
  | none => .error "FileNotFoundError: problem.md"
  | some pmd =>
    match f.solution_md with
    | none => .error "FileNotFoundError: solution.md"
    | some smd =>
      .ok { name := f.name
            problem_md := pmd
            solution_md := smd
            logs := f.logs_dir.getD []
            configs := f.configs_dir.getD [] }

/-! ### Prompt assembly -/

/-- Model of `Problem.get_context_for_agent`. -/
def get_context_for_agent (p : Problem) : String :=
  let context := "# Cloud Infrastructure Debugging Problem\n\n" ++ p.problem_md ++ "\n\n"
  let context :=
    if p.logs.isEmpty then context
    else context ++ "## Available Logs\n\n" ++
      String.join (p.logs.map fun l =>
        "### " ++ l.1 ++ "\n```\n" ++ l.2 ++ "\n```\n\n")
  let context :=
    if p.configs.isEmpty then context
    else context ++ "## Configuration Files\n\n" ++
      String.join (p.configs.map fun c =>
        "### " ++ c.1 ++ "\n```yaml\n" ++ c.2 ++ "\n```\n\n")
  context ++
    "\n## Your Task\nAs an experienced cloud engineer, analyze this problem and provide:\n\n" ++
    "1. **Root Cause Analysis**: What is the underlying issue causing this problem?\n" ++
    "2. **Diagnosis Steps**: What specific steps would you take to investigate and confirm the root cause?\n" ++
    "3. **Solution**: What are the specific steps to fix this issue?\n" ++
    "4. **Verification**: How would you verify that your solution worked?\n" ++
    "5. **Prevention**: What measures would prevent this from happening again?\n\n" ++
    "Please be specific with commands, configurations, and procedures.\n"

/-- Model of `LLMJudge._get_judge_system_prompt`: the fixed judge persona. -/
def get_judge_system_prompt : String :=
  "You are an expert cloud infrastructure engineer and evaluation judge with 15+ years of experience. \n\n" ++
  "Your task is to evaluate debugging solutions by comparing an agent's solution against the expected solution for cloud infrastructure problems.\n\n" ++
  "You should score on three dimensions:\n" ++
  "1. **Diagnosis Accuracy (0-100)**: How well did the agent identify the root cause?\n" ++
  "2. **Solution Correctness (0-100)**: How correct and complete is the proposed fix?\n" ++
  "3. **Investigation Quality (0-100)**: How systematic and thorough is the debugging methodology?\n\n" ++
  "Be fair but rigorous. Consider that there may be multiple valid approaches, but focus on:\n" ++
  "- Technical accuracy\n- Operational feasibility  \n- Completeness of solution\n" ++
  "- Quality of debugging process\n- Risk considerations\n\n" ++
  "Provide your response in this exact JSON format:\n\x7b\n" ++
  "    \"diagnosis_accuracy\": <score 0-100>,\n" ++
  "    \"solution_correctness\": <score 0-100>, \n" ++
  "    \"investigation_quality\": <score 0-100>,\n" ++
  "    \"reasoning\": \"<detailed explanation of your scoring>\",\n" ++
  "    \"feedback\": \"<constructive feedback for improvement>\"\n\x7d"

/-- Model of `LLMJudge._create_judge_prompt`. -/
def create_judge_prompt (p : Problem) (agent_solution : String) : String :=
  "# Evaluation Task\n\n## Problem Context\n" ++ p.problem_md ++
  "\n\n## Expected Solution (Ground Truth)\n" ++ p.solution_md ++
  "\n\n## Agent's Solution (To Evaluate)\n" ++ agent_solution ++
  "\n\n## Your Task\nCompare the agent's solution against the expected solution and evaluate on:\n\n" ++
  "1. **Diagnosis Accuracy**: Did the agent correctly identify the root cause?\n" ++
  "2. **Solution Correctness**: Is the proposed solution technically sound and complete?\n" ++
  "3. **Investigation Quality**: Does the agent show good debugging methodology?\n\n" ++
  "Consider:\n- Technical accuracy of commands and procedures\n- Completeness of the solution\n" ++
  "- Risk assessment and prevention measures\n- Clarity and systematicness of approach\n" ++
  "- Whether the solution would actually work in practice\n\n" ++
  "Score each dimension 0-100 and provide detailed reasoning."

/-! ### The judge client -/

/-- Numeric value of a decoded JSON field as Python sees it in `x * 0.4`
(ints are converted to the nearest double, floats already are doubles, bools
are 0/1); `none` when the multiplication would raise `TypeError`. -/
def pyNumVal : Jval → Option ℚ
  | .jint n => some (intToDouble n)
  | .jfloat q => some (roundDouble q)
  | .jbool b => some (if b then 1 else 0)
  | _ => none

/-- Python `int(x)` of a decoded JSON field (used for the stored sub-scores;
only meaningful when `pyNumVal` succeeds). -/
def pyIntOf : Jval → ℤ
  | .jint n => n
  | .jfloat q => pyInt (roundDouble q)
  | .jbool b => if b then 1 else 0
  | _ => 0

/-- Python `str()` of a decoded JSON value, for the rare case of a non-string
`reasoning`/`feedback` field.  Containers are rendered shallowly; in Python the
raw object would be stored and rendered only in the report. -/
def jvalShallowStr : Jval → String
  | .jstr s => s
  | .jbool true => "True"
  | .jbool false => "False"
  | .jnull => "None"
  | .jint n => toString n
  | .jfloat _ => "<float>"
  | .jarr _ => "<list>"
  | .jobj _ => "<dict>"

/-- Model of `judge_data.get(key, default)`. -/
def jgetD (fields : List (String × Jval)) (k : String) (d : Jval) : Jval :=
  (jget fields k).getD d

/-- The overall score of the success path:
`int(diagnosis * 0.4 + solution * 0.4 + investigation * 0.2)` evaluated in
binary64 arithmetic, left to right. -/
def overallOf (dv sv iv : ℚ) : ℤ :=
  pyInt (fadd (fadd (fmul dv c04) (fmul sv c04)) (fmul iv c02))

/-- The substring of the oracle reply between the first brace and the last
brace (`judge_response[start_idx:end_idx]`). -/
def judgeSpan (cs : List Char) : List Char :=
  pySlice cs (pyFind cs lbrace) (pyRFind cs rbrace + 1)

/-- The 50/50/50 fallback result built by the `except` branch of
`_parse_judge_response`. -/
def parseFallback (model now : String) (p : Problem)
    (agent_solution agent_name judge_response errMsg : String) : EvaluationResult :=
  { problem_name := p.name
    agent_name := agent_name
    timestamp := now
    diagnosis_accuracy := 50
    solution_correctness := 50
    investigation_quality := 50
    overall_score := 50
    agent_solution := agent_solution
    expected_solution := p.solution_md
    judge_feedback := "Failed to parse judge response: " ++ errMsg
    judge_reasoning := judge_response
    judge_model := model }

/-- Model of `LLMJudge._parse_judge_response`.  Here `start_idx` is the first index of `{`
or -1 and `end_idx` is the last index of `}` plus one; note that `end_idx`
can never be -1, so the source's `end_idx != -1` test is vacuous and a reply
with `{` but no `}` reaches `json.loads("")`, which fails.  Every exception of
the `try` block lands in the 50/50/50 fallback. -/
def parse_judge_response (model now : String) (p : Problem)
    (agent_solution agent_name judge_response : String) : EvaluationResult :=
  let cs := judge_response.data
  let start_idx := pyFind cs lbrace
  let end_idx := pyRFind cs rbrace + 1
  if start_idx ≠ -1 ∧ end_idx ≠ -1 then
    match json_loads (pySlice cs start_idx end_idx) with
    | some (.jobj fields) =>
      let diagnosis := jgetD fields "diagnosis_accuracy" (.jint 0)
      let solution := jgetD fields "solution_correctness" (.jint 0)
      let investigation := jgetD fields "investigation_quality" (.jint 0)
      let reasoning := jgetD fields "reasoning" (.jstr "No reasoning provided")
      let feedback := jgetD fields "feedback" (.jstr "No feedback provided")
      match pyNumVal diagnosis, pyNumVal solution, pyNumVal investigation with
      | some dv, some sv, some iv =>
        { problem_name := p.name
          agent_name := agent_name
          timestamp := now
          diagnosis_accuracy := pyIntOf diagnosis
          solution_correctness := pyIntOf solution
          investigation_quality := pyIntOf investigation
          overall_score := overallOf dv sv iv
          agent_solution := agent_solution
          expected_solution := p.solution_md
          judge_feedback := jvalShallowStr feedback
          judge_reasoning := jvalShallowStr reasoning
          judge_model := model }
      | _, _, _ =>
        parseFallback model now p agent_solution agent_name judge_response
          "unsupported operand type(s) for *"
    | some _ =>
      parseFallback model now p agent_solution agent_name judge_response
        "judge response is not a JSON object"
    | none =>
      parseFallback model now p agent_solution agent_name judge_response
        "Expecting value"
  else
    parseFallback model now p agent_solution agent_name judge_response
      "No JSON found in judge response"

/-- Model of `LLMJudge.evaluate_solution`: call the scoring oracle with the fixed
system prompt and the judge prompt; an oracle exception becomes the all-zero
result, otherwise the reply is parsed. -/
def evaluate_solution (model now : String)
    (oracle : String → String → Except String String)
    (p : Problem) (agent_solution : String) (agent_name : String) :
    EvaluationResult :=
  let judge_prompt := create_judge_prompt p agent_solution
  match oracle get_judge_system_prompt judge_prompt with
  | .error e =>
    { problem_name := p.name
      agent_name := agent_name
      timestamp := now
      diagnosis_accuracy := 0
      solution_correctness := 0
      investigation_quality := 0
      overall_score := 0
      agent_solution := agent_solution
      expected_solution := p.solution_md
      judge_feedback := "Error during evaluation: " ++ e
      judge_reasoning := ""
      judge_model := model }
  | .ok judge_response =>
    parse_judge_response model now p agent_solution agent_name judge_response

/-! ### The orchestrator -/

/-- One entry of `problems_dir.iterdir()`. -/
structure DirEntry where
  isDir : Bool
  fixture : Fixture
deriving DecidableEq

/-- Model of `CloudDebugEvaluator.evaluate_with_agent`: load the problem, run the
agent on the rendered context, judge the returned solution.  A load failure
propagates as an error. -/
def evaluate_with_agent (model now : String)
    (oracle : String → String → Except String String)
    (agent : String → String) (agent_name : String) (f : Fixture) :
    Except String EvaluationResult :=
  match Problem.load f with
  | .error e => .error e
  | .ok p =>
    let problem_context := get_context_for_agent p
    let agent_solution := agent problem_context
    .ok (evaluate_solution model now oracle p agent_solution agent_name)

/-- Model of `CloudDebugEvaluator.evaluate_all_problems`: iterate the problems
directory in listing order, keep entries that are directories containing
`problem.md`, evaluate each and collect the results; the first propagated
exception aborts the batch. -/
def evaluate_all_problems (model now : String)
    (oracle : String → String → Except String String)
    (agent : String → String) (agent_name : String) :
    List DirEntry → Except String (List EvaluationResult)
  | [] => .ok []
  | e :: rest =>
    if e.isDir ∧ e.fixture.problem_md.isSome then
      match evaluate_with_agent model now oracle agent agent_name e.fixture with
      | .error err => .error err
      | .ok r =>
        match evaluate_all_problems model now oracle agent agent_name rest with
        | .error err => .error err
        | .ok rs => .ok (r :: rs)
    else
      evaluate_all_problems model now oracle agent agent_name rest

/-! ### The report generator -/

/-- Python `f"[x]:.1f"` on a float: decimal rounding of the double's exact
value to one fractional digit, ties to even, sign rendered separately. -/
def formatFixed1Pos (x : ℚ) : String :=
  let n := (roundHalfEvenQ (qmul x (mkRat 10 1))).toNat
  toString (n / 10) ++ "." ++ toString (n % 10)

/-- Python fixed-point formatting with one decimal place. -/
def formatFixed1 (x : ℚ) : String :=
  if x.num < 0 then "-" ++ formatFixed1Pos (qneg x) else formatFixed1Pos x

/-- The value `sum(r.overall_score for r in results) / len(results)` as a binary64
double. -/
def avg_score (results : List EvaluationResult) : ℚ :=
  fdiv (mkRat (results.map (fun r => r.overall_score)).sum 1)
    (mkRat (results.length : ℤ) 1)

/-- One row of the summary table. -/
def summary_row (r : EvaluationResult) : String :=
  "| " ++ r.problem_name ++ " | " ++ toString r.overall_score ++ "/100 | " ++
  toString r.diagnosis_accuracy ++ "/100 | " ++
  toString r.solution_correctness ++ "/100 | " ++
  toString r.investigation_quality ++ "/100 |\n"

/-- One per-problem detail block. -/
def detail_block (r : EvaluationResult) : String :=
  "### " ++ r.problem_name ++ "\n\n**Overall Score:** " ++
  toString r.overall_score ++ "/100\n\n**Scores:**\n- Diagnosis Accuracy: " ++
  toString r.diagnosis_accuracy ++ "/100\n- Solution Correctness: " ++
  toString r.solution_correctness ++ "/100  \n- Investigation Quality: " ++
  toString r.investigation_quality ++ "/100\n\n**Judge Feedback:**\n" ++
  r.judge_feedback ++ "\n\n**Judge Reasoning:**\n" ++ r.judge_reasoning ++
  "\n---\n\n"

/-- The header of a non-empty report, ending with the average-score line and
the summary-table column titles. -/
def report_header (results : List EvaluationResult) : String :=
  let agent_name := (results.head?.map (fun r => r.agent_name)).getD ""
  let timestamp := (results.head?.map (fun r => r.timestamp)).getD ""
  "# Cloud Debug Eval Report\n\n**Agent:** " ++ agent_name ++
  "  \n**Timestamp:** " ++ timestamp ++ "  \n**Problems Evaluated:** " ++
  toString results.length ++ "  \n**Average Score:** " ++
  formatFixed1 (avg_score results) ++ "/100\n\n## Summary\n\n" ++
  "| Problem | Overall Score | Diagnosis | Solution | Investigation |\n" ++
  "|---------|---------------|-----------|----------|---------------|\n"

/-- Model of `CloudDebugEvaluator._generate_md_report`. -/
def generate_md_report (results : List EvaluationResult) : String :=
  if results.isEmpty then "# No results to report"
  else
    report_header results ++ String.join (results.map summary_row) ++
    "\n## Detailed Results\n\n" ++ String.join (results.map detail_block)

/-- Model of `CloudDebugEvaluator.generate_report`: ensure the reports directory,
derive the file name from the first result's agent (or "unknown") and the
timestamp, write the Markdown report and return its path.  Modelled as the
pair (path, written content). -/
def generate_report (results : List EvaluationResult) (timestamp : String) :
    String × String :=
  let agent_name := (results.head?.map (fun r => r.agent_name)).getD "unknown"
  ("reports/eval_report_" ++ agent_name ++ "_" ++ timestamp ++ ".md",
    generate_md_report results)

/-! ### Derived notions and concrete test fixtures used in the statements -/

/-- The data-model range invariant of §3 of the design: all four scores are
integers in [0, 100]. -/
def InRange (r : EvaluationResult) : Prop :=
  (0 ≤ r.diagnosis_accuracy ∧ r.diagnosis_accuracy ≤ 100) ∧
  (0 ≤ r.solution_correctness ∧ r.solution_correctness ≤ 100) ∧
  (0 ≤ r.investigation_quality ∧ r.investigation_quality ≤ 100) ∧
  (0 ≤ r.overall_score ∧ r.overall_score ≤ 100)

/-- The single-problem evaluation on a fixture whose two required documents
are present, written as a total function. -/
def evalOne (model now : String) (oracle : String → String → Except String String)
    (agent : String → String) (agent_name : String) (f : Fixture) :
    EvaluationResult :=
  let p : Problem :=
    { name := f.name
      problem_md := f.problem_md.getD ""
      solution_md := f.solution_md.getD ""
      logs := f.logs_dir.getD []
      configs := f.configs_dir.getD [] }
  evaluate_solution model now oracle p (agent (get_context_for_agent p)) agent_name

/-- A minimal problem used to drive the judge client on concrete replies. -/
def exampleProblem : Problem :=
  { name := "p1", problem_md := "P", solution_md := "S", logs := [], configs := [] }

/-- The embedded JSON payload of the parse-tolerance test reply. -/
def exampleSpan : String :=
  "\x7b\"diagnosis_accuracy\":80,\"solution_correctness\":70," ++
  "\"investigation_quality\":90,\"reasoning\":\"ok\",\"feedback\":\"fine\"\x7d"

/-- The parse-tolerance test reply: a valid payload surrounded by prose. -/
def exampleReply : String := "Sure, here you go: " ++ exampleSpan ++ " thanks!"

/-- A well-formed reply on which the exact weighted-floor formula disagrees
with the float evaluation: scores (1, 43, 2). -/
def floatSlipReply : String :=
  "\x7b\"diagnosis_accuracy\":1,\"solution_correctness\":43," ++
  "\"investigation_quality\":2,\"reasoning\":\"r\",\"feedback\":\"f\"\x7d"

/-- A well-formed reply whose scores leave the intended [0, 100] range. -/
def outOfRangeReply : String :=
  "\x7b\"diagnosis_accuracy\":1000,\"solution_correctness\":0," ++
  "\"investigation_quality\":0,\"reasoning\":\"r\",\"feedback\":\"f\"\x7d"

/-- A fixture whose two required documents exist but are empty files. -/
def emptyDocsFixture : Fixture :=
  { name := "empty", problem_md := some "", solution_md := some "",
    logs_dir := none, configs_dir := none }

/-- A complete fixture. -/
def fixtureA : Fixture :=
  { name := "a", problem_md := some "PA", solution_md := some "SA",
    logs_dir := none, configs_dir := none }

/-- A fixture missing its `problem.md`. -/
def fixtureB : Fixture :=
  { name := "b", problem_md := none, solution_md := some "SB",
    logs_dir := none, configs_dir := none }

/-- A complete fixture with auxiliary artifacts. -/
def fixtureC : Fixture :=
  { name := "c", problem_md := some "PC", solution_md := some "SC",
    logs_dir := some [("x.log", "L")], configs_dir := some [] }

/-- A directory listing with three fixture directories, one of which lacks
`problem.md`. -/
def exampleEntries : List DirEntry :=
  [{ isDir := true, fixture := fixtureA },
   { isDir := true, fixture := fixtureB },
   { isDir := true, fixture := fixtureC }]

/-- A trivial agent callback. -/
def constAgent : String → String := fun _ => "agent answer"

/-- An oracle whose call always raises. -/
def errOracle : String → String → Except String String :=
  fun _ _ => .error "ConnectionError"

/-- One concrete evaluation result, for exercising the report generator. -/
def exampleResult : EvaluationResult :=
  { problem_name := "p1", agent_name := "agent", timestamp := "t0",
    diagnosis_accuracy := 80, solution_correctness := 70,
    investigation_quality := 90, overall_score := 78,
    agent_solution := "sol", expected_solution := "S",
    judge_feedback := "fine", judge_reasoning := "ok", judge_model := "gpt-4" }

/-- A second concrete evaluation result. -/
def exampleResult2 : EvaluationResult :=
  { problem_name := "p2", agent_name := "agent", timestamp := "t0",
    diagnosis_accuracy := 40, solution_correctness := 40,
    investigation_quality := 45, overall_score := 41,
    agent_solution := "sol", expected_solution := "S",
    judge_feedback := "fine", judge_reasoning := "ok", judge_model := "gpt-4" }

/-! ### Bridging the kernel-friendly operations to the field structure of ℚ -/

theorem qmul_eq (a b : ℚ) : qmul a b = a * b := by
  rw [qmul, Rat.mkRat_eq_divInt, Int.natCast_mul, ← Rat.divInt_mul_divInt',
    Rat.num_divInt_den, Rat.num_divInt_den]

theorem qadd_eq (a b : ℚ) : qadd a b = a + b := by
  rw [qadd, Rat.mkRat_eq_divInt, Int.natCast_mul,
    ← Rat.divInt_add_divInt _ _ (Int.natCast_ne_zero.mpr a.den_ne_zero)
      (Int.natCast_ne_zero.mpr b.den_ne_zero),
    Rat.num_divInt_den, Rat.num_divInt_den]

theorem qneg_eq (a : ℚ) : qneg a = -a := by
  rw [qneg, Rat.mkRat_eq_divInt, ← Rat.neg_divInt, Rat.num_divInt_den]

theorem qinv_eq (a : ℚ) : qinv a = a⁻¹ := by
  rw [qinv, Rat.inv_def']
  rcases lt_trichotomy a.num 0 with h | h | h
  · rw [if_pos h, Rat.mkRat_eq_divInt]
    have hab : (a.num.natAbs : ℤ) = -a.num := by omega
    rw [hab]
    exact Rat.neg_divInt_neg _ _
  · rw [if_neg (by omega), h, Int.toNat_zero, Rat.mkRat_zero, Rat.divInt_zero]
  · rw [if_neg (by omega), Rat.mkRat_eq_divInt, Int.toNat_of_nonneg h.le]

theorem qdiv_eq (a b : ℚ) : qdiv a b = a / b := by
  rw [qdiv, qmul_eq, qinv_eq, div_eq_mul_inv]

theorem pow2_eq (e : ℤ) : pow2 e = (2 : ℚ) ^ e := by
  rw [pow2]
  by_cases h : 0 ≤ e
  · rw [if_pos h, Rat.mkRat_one]
    push_cast
    rw [← zpow_natCast, Int.toNat_of_nonneg h]
  · rw [if_neg h, Rat.mkRat_eq_divInt, Rat.divInt_eq_div]
    push_cast
    rw [one_div, ← zpow_natCast, Int.toNat_of_nonneg (by omega : (0:ℤ) ≤ -e),
      ← zpow_neg, Int.neg_neg]

theorem pow2_pos (e : ℤ) : 0 < pow2 e := by
  rw [pow2_eq]; positivity

/-! ### Facts about `pyInt` (truncation toward zero) -/

theorem pyInt_of_nonneg {q : ℚ} (h : 0 ≤ q) : pyInt q = ⌊q⌋ := by
  rw [pyInt, if_neg (by simpa using not_lt.mpr (Rat.num_nonneg.mpr h))]

theorem pyInt_nonneg {q : ℚ} (h : 0 ≤ q) : 0 ≤ pyInt q := by
  rw [pyInt_of_nonneg h]
  exact Int.floor_nonneg.mpr h

theorem pyInt_le_of_lt {q : ℚ} {n : ℤ} (h0 : 0 ≤ q) (h : q < (n : ℚ) + 1) :
    pyInt q ≤ n := by
  rw [pyInt_of_nonneg h0]
  have hlt : ⌊q⌋ < n + 1 := Int.floor_lt.mpr (by push_cast; linarith)
  omega

theorem pyInt_intCast (n : ℤ) : pyInt ((n : ℚ)) = n := by
  rw [pyInt]
  by_cases h : (n : ℚ).num < 0
  · rw [if_pos h, qneg_eq, ← Int.cast_neg, Int.floor_intCast, Int.neg_neg]
  · rw [if_neg h, Int.floor_intCast]

/-! ### Round-half-even: distance at most one half -/

theorem num_mul_two_lt_den_iff (r : ℚ) : r.num * 2 < (r.den : ℤ) ↔ r < 1 / 2 := by
  have hden : (0 : ℚ) < (r.den : ℚ) := by
    exact_mod_cast Nat.pos_of_ne_zero r.den_ne_zero
  have hnum := Rat.num_div_den r
  constructor
  · intro h2
    rw [← hnum, div_lt_div_iff₀ hden (by norm_num)]
    calc (r.num : ℚ) * 2 = ((r.num * 2 : ℤ) : ℚ) := by push_cast; ring
    _ < ((r.den : ℤ) : ℚ) := by exact_mod_cast h2
    _ = 1 * (r.den : ℚ) := by push_cast; ring
  · intro h2
    rw [← hnum, div_lt_div_iff₀ hden (by norm_num)] at h2
    have : ((r.num * 2 : ℤ) : ℚ) < ((r.den : ℤ) : ℚ) := by push_cast at h2 ⊢; linarith
    exact_mod_cast this

theorem den_lt_num_mul_two_iff (r : ℚ) : (r.den : ℤ) < r.num * 2 ↔ 1 / 2 < r := by
  have hden : (0 : ℚ) < (r.den : ℚ) := by
    exact_mod_cast Nat.pos_of_ne_zero r.den_ne_zero
  have hnum := Rat.num_div_den r
  constructor
  · intro h2
    rw [← hnum, div_lt_div_iff₀ (by norm_num) hden]
    calc (1 : ℚ) * (r.den : ℚ) = ((r.den : ℤ) : ℚ) := by push_cast; ring
    _ < ((r.num * 2 : ℤ) : ℚ) := by exact_mod_cast h2
    _ = (r.num : ℚ) * 2 := by push_cast; ring
  · intro h2
    rw [← hnum, div_lt_div_iff₀ (by norm_num) hden] at h2
    have : ((r.den : ℤ) : ℚ) < ((r.num * 2 : ℤ) : ℚ) := by push_cast at h2 ⊢; linarith
    exact_mod_cast this

theorem roundHalfEvenQ_bounds (q : ℚ) :
    q - 1 / 2 ≤ (roundHalfEvenQ q : ℚ) ∧ (roundHalfEvenQ q : ℚ) ≤ q + 1 / 2 := by
  rw [roundHalfEvenQ]
  have hr : qadd q (qneg (mkRat ⌊q⌋ 1)) = q - (⌊q⌋ : ℚ) := by
    rw [qadd_eq, qneg_eq, Rat.mkRat_one]; ring
  have hfl : (⌊q⌋ : ℚ) ≤ q := Int.floor_le q
  have hfu : q < (⌊q⌋ : ℚ) + 1 := Int.lt_floor_add_one q
  by_cases h1 : (qadd q (qneg (mkRat ⌊q⌋ 1))).num * 2 <
      ((qadd q (qneg (mkRat ⌊q⌋ 1))).den : ℤ)
  · rw [if_pos h1]
    rw [num_mul_two_lt_den_iff, hr] at h1
    constructor <;> [linarith; linarith]
  · rw [if_neg h1]
    by_cases h2 : ((qadd q (qneg (mkRat ⌊q⌋ 1))).den : ℤ) <
        (qadd q (qneg (mkRat ⌊q⌋ 1))).num * 2
    · rw [if_pos h2]
      rw [den_lt_num_mul_two_iff, hr] at h2
      push_cast
      constructor <;> linarith
    · rw [if_neg h2]
      rw [num_mul_two_lt_den_iff, hr, not_lt] at h1
      rw [den_lt_num_mul_two_iff, hr, not_lt] at h2
      have heq : q - (⌊q⌋ : ℚ) = 1 / 2 := le_antisymm h2 h1
      by_cases h3 : ⌊q⌋ % 2 = 0
      · rw [if_pos h3]
        constructor <;> linarith
      · rw [if_neg h3]
        push_cast
        constructor <;> linarith

theorem roundHalfEvenQ_intCast (n : ℤ) : roundHalfEvenQ ((n : ℚ)) = n := by
  rw [roundHalfEvenQ]
  have h0 : qadd ((n : ℚ)) (qneg (mkRat ⌊((n : ℚ))⌋ 1)) = 0 := by
    rw [qadd_eq, qneg_eq, Rat.mkRat_one, Int.floor_intCast]; ring
  rw [h0]
  norm_num

/-! ### Correctness of the base-2 logarithm -/

theorem log2F_spec (fuel : ℕ) : ∀ n : ℕ, 1 ≤ n → n ≤ fuel →
    2 ^ log2F fuel n ≤ n ∧ n < 2 ^ (log2F fuel n + 1) := by
  induction fuel with
  | zero => intro n h1 h2; omega
  | succ f ih =>
    intro n h1 h2
    by_cases h : n < 2
    · have hn : n = 1 := by omega
      subst hn
      simp [log2F]
    · have heq : log2F (f + 1) n = log2F f (n / 2) + 1 := by
        simp [log2F, h]
      rw [heq]
      have hn2 : 1 ≤ n / 2 := by omega
      have hf : n / 2 ≤ f := by omega
      obtain ⟨l, u⟩ := ih (n / 2) hn2 hf
      have e1 : 2 ^ (log2F f (n / 2) + 1) = 2 * 2 ^ log2F f (n / 2) := by ring
      have e2 : 2 ^ (log2F f (n / 2) + 1 + 1) = 2 * 2 ^ (log2F f (n / 2) + 1) := by ring
      constructor
      · rw [e1]; omega
      · rw [e2]; omega

theorem nat_lt_div_succ_mul (a b : ℕ) (hb : 0 < b) : a < (a / b + 1) * b := by
  have h := Nat.div_add_mod a b
  have h2 := Nat.mod_lt a hb
  calc a = b * (a / b) + a % b := h.symm
  _ < b * (a / b) + b := by linarith
  _ = (a / b + 1) * b := by ring

theorem ilog2Nat_spec (a b : ℕ) (ha : 1 ≤ a) (hb : 0 < b) :
    (2 : ℚ) ^ ilog2Nat a b ≤ (a : ℚ) / (b : ℚ) ∧
      (a : ℚ) / (b : ℚ) < (2 : ℚ) ^ (ilog2Nat a b + 1) := by
  have hbq : (0 : ℚ) < (b : ℚ) := by exact_mod_cast hb
  rw [ilog2Nat]
  by_cases hc : b ≤ a
  · rw [if_pos hc]
    have hm1 : 1 ≤ a / b := (Nat.one_le_div_iff hb).mpr hc
    have hma : a / b ≤ a := Nat.div_le_self _ _
    obtain ⟨l, u⟩ := log2F_spec a (a / b) hm1 hma
    constructor
    · rw [zpow_natCast]
      calc ((2 : ℚ) ^ log2F a (a / b)) ≤ ((a / b : ℕ) : ℚ) := by exact_mod_cast l
      _ ≤ (a : ℚ) / (b : ℚ) := Nat.cast_div_le
    · have hlt : a < (a / b + 1) * b := nat_lt_div_succ_mul a b hb
      have hdiv : (a : ℚ) / (b : ℚ) < ((a / b + 1 : ℕ) : ℚ) := by
        rw [div_lt_iff₀ hbq]
        exact_mod_cast hlt
      have hu : a / b + 1 ≤ 2 ^ (log2F a (a / b) + 1) := u
      have hle : ((a / b + 1 : ℕ) : ℚ) ≤ ((2 ^ (log2F a (a / b) + 1) : ℕ) : ℚ) := by
        exact_mod_cast hu
      rw [show ((log2F a (a / b) : ℕ) : ℤ) + 1 = ((log2F a (a / b) + 1 : ℕ) : ℤ) by
          push_cast; ring,
        zpow_natCast]
      calc (a : ℚ) / (b : ℚ) < ((a / b + 1 : ℕ) : ℚ) := hdiv
      _ ≤ ((2 ^ (log2F a (a / b) + 1) : ℕ) : ℚ) := hle
      _ = (2 : ℚ) ^ (log2F a (a / b) + 1) := by push_cast; ring
  · rw [if_neg hc]
    push_neg at hc
    have hba : a ≤ b - 1 := by omega
    have hc1 : 1 ≤ (b - 1) / a := (Nat.one_le_div_iff (by omega)).mpr hba
    have hcb : (b - 1) / a ≤ b := le_trans (Nat.div_le_self _ _) (by omega)
    obtain ⟨l, u⟩ := log2F_spec b ((b - 1) / a) hc1 hcb
    have n1 : a * 2 ^ log2F b ((b - 1) / a) ≤ b - 1 := by
      calc a * 2 ^ log2F b ((b - 1) / a) ≤ a * ((b - 1) / a) :=
        Nat.mul_le_mul_left _ l
      _ ≤ b - 1 := by
            rw [Nat.mul_comm]
            exact Nat.div_mul_le_self _ _
    have n2 : b ≤ a * 2 ^ (log2F b ((b - 1) / a) + 1) := by
      have hlt : b - 1 < ((b - 1) / a + 1) * a := nat_lt_div_succ_mul _ _ (by omega)
      have hu2 : (b - 1) / a + 1 ≤ 2 ^ (log2F b ((b - 1) / a) + 1) := u
      calc b ≤ ((b - 1) / a + 1) * a := by omega
      _ ≤ 2 ^ (log2F b ((b - 1) / a) + 1) * a := Nat.mul_le_mul_right _ hu2
      _ = a * 2 ^ (log2F b ((b - 1) / a) + 1) := Nat.mul_comm _ _
    have h2L1 : (0 : ℚ) < (2 : ℚ) ^ (log2F b ((b - 1) / a) + 1) := by positivity
    have h2L : (0 : ℚ) < (2 : ℚ) ^ log2F b ((b - 1) / a) := by positivity
    constructor
    · rw [zpow_neg, zpow_natCast, inv_eq_one_div,
        div_le_div_iff₀ (by positivity) hbq]
      have hcast : (b : ℚ) ≤ (a : ℚ) * (2 : ℚ) ^ (log2F b ((b - 1) / a) + 1) := by
        exact_mod_cast n2
      
      linarith
    · rw [show -(((log2F b ((b - 1) / a) + 1 : ℕ)) : ℤ) + 1 =
          -((log2F b ((b - 1) / a) : ℕ) : ℤ) by push_cast; ring,
        zpow_neg, zpow_natCast, inv_eq_one_div,
        div_lt_div_iff₀ hbq h2L]
      have hcast : (a : ℚ) * (2 : ℚ) ^ log2F b ((b - 1) / a) ≤ (b : ℚ) - 1 := by
        have hn : ((a * 2 ^ log2F b ((b - 1) / a) : ℕ) : ℚ) ≤ ((b - 1 : ℕ) : ℚ) := by
          exact_mod_cast n1
        have hd1 : ((b - 1 : ℕ) : ℚ) = (b : ℚ) - 1 := by
          push_cast [Nat.cast_sub hb]
          ring
        rw [hd1] at hn
        calc (a : ℚ) * (2 : ℚ) ^ log2F b ((b - 1) / a) =
            ((a * 2 ^ log2F b ((b - 1) / a) : ℕ) : ℚ) := by push_cast; ring
        _ ≤ (b : ℚ) - 1 := hn
      linarith

theorem ratIlog2_spec {q : ℚ} (hq : 0 < q) :
    pow2 (ratIlog2 q) ≤ q ∧ q < pow2 (ratIlog2 q + 1) := by
  have hnum : 0 < q.num := Rat.num_pos.mpr hq
  have ha1 : 1 ≤ q.num.toNat := by omega
  have hb1 : 0 < q.den := q.den_pos
  have hqab : ((q.num.toNat : ℕ) : ℚ) / ((q.den : ℕ) : ℚ) = q := by
    have h1 : ((q.num.toNat : ℕ) : ℚ) = (q.num : ℚ) := by
      have := Int.toNat_of_nonneg hnum.le
      exact_mod_cast congrArg (fun z : ℤ => (z : ℚ)) this
    rw [h1, Rat.num_div_den]
  obtain ⟨l, u⟩ := ilog2Nat_spec q.num.toNat q.den ha1 hb1
  rw [hqab] at l u
  rw [ratIlog2, pow2_eq, pow2_eq]
  exact ⟨l, u⟩

/-! ### The binary64 rounding is correct to half an ulp -/

theorem roundDoublePos_bounds {q : ℚ} (hq : 0 < q) :
    q - q * (1 / 2 ^ 53) ≤ roundDoublePos q ∧
      roundDoublePos q ≤ q + q * (1 / 2 ^ 53) := by
  obtain ⟨hl, hu⟩ := ratIlog2_spec hq
  simp only [roundDoublePos]
  set e : ℤ := ratIlog2 q - 52 with he
  rw [qmul_eq, qmul_eq, pow2_eq, pow2_eq, Rat.mkRat_one]
  have h2 : (2 : ℚ) ≠ 0 := by norm_num
  have h2e : (0 : ℚ) < (2 : ℚ) ^ e := zpow_pos (by norm_num) e
  obtain ⟨b1, b2⟩ := roundHalfEvenQ_bounds (q * (2 : ℚ) ^ (-e))
  have hre : q * (2 : ℚ) ^ (-e) * (2 : ℚ) ^ e = q := by
    rw [mul_assoc, ← zpow_add₀ h2]
    norm_num
  have hkey : (2 : ℚ) ^ e / 2 ≤ q * (1 / 2 ^ 53) := by
    have h52 : (2 : ℚ) ^ (e + 52) ≤ q := by
      have hee : e + 52 = ratIlog2 q := by rw [he]; ring
      rw [hee, ← pow2_eq]
      exact hl
    have hpow : (2 : ℚ) ^ e / 2 = (2 : ℚ) ^ (e + 52) * (2 : ℚ) ^ (-53 : ℤ) := by
      rw [← zpow_add₀ h2]
      rw [show e + 52 + -53 = e - 1 by ring, zpow_sub_one₀ h2]
      rw [div_eq_mul_inv]
    have hneg : (2 : ℚ) ^ (-53 : ℤ) = 1 / 2 ^ 53 := by
      rw [zpow_neg, inv_eq_one_div]
      norm_num
    rw [hpow, hneg]
    have h53pos : (0 : ℚ) ≤ 1 / 2 ^ 53 := by norm_num
    exact mul_le_mul_of_nonneg_right h52 h53pos
  constructor
  · have hmul := mul_le_mul_of_nonneg_right b1 h2e.le
    have hexp : (q * (2 : ℚ) ^ (-e) - 1 / 2) * (2 : ℚ) ^ e =
        q - (2 : ℚ) ^ e / 2 := by
      rw [sub_mul, hre]
      ring
    rw [hexp] at hmul
    linarith
  · have hmul := mul_le_mul_of_nonneg_right b2 h2e.le
    have hexp : (q * (2 : ℚ) ^ (-e) + 1 / 2) * (2 : ℚ) ^ e =
        q + (2 : ℚ) ^ e / 2 := by
      rw [add_mul, hre]
      ring
    rw [hexp] at hmul
    linarith

theorem roundDouble_eq_pos {q : ℚ} (hq : 0 < q) :
    roundDouble q = roundDoublePos q := by
  rw [roundDouble, if_neg (not_lt.mpr (Rat.num_nonneg.mpr hq.le)),
    if_neg (Rat.num_pos.mpr hq).ne']

theorem roundDouble_zero : roundDouble 0 = 0 := by
  rw [roundDouble]
  norm_num

theorem roundDouble_bounds {q : ℚ} (h : 0 ≤ q) :
    q - q * (1 / 2 ^ 53) ≤ roundDouble q ∧ roundDouble q ≤ q + q * (1 / 2 ^ 53) := by
  rcases h.eq_or_lt with heq | hq
  · rw [← heq, roundDouble_zero]
    norm_num
  · rw [roundDouble_eq_pos hq]
    exact roundDoublePos_bounds hq

theorem roundDouble_nonneg {q : ℚ} (h : 0 ≤ q) : 0 ≤ roundDouble q := by
  have hb := (roundDouble_bounds h).1
  nlinarith

theorem roundDouble_intCast {n : ℤ} (h0 : 0 < n) (h1 : n < 2 ^ 53) :
    roundDouble ((n : ℚ)) = (n : ℚ) := by
  have hq : (0 : ℚ) < (n : ℚ) := by exact_mod_cast h0
  have h2 : (2 : ℚ) ≠ 0 := by norm_num
  rw [roundDouble_eq_pos hq]
  have hlog_le : ratIlog2 ((n : ℚ)) ≤ 52 := by
    obtain ⟨l, _⟩ := ratIlog2_spec hq
    by_contra hgt
    push_neg at hgt
    have hmono : pow2 53 ≤ pow2 (ratIlog2 ((n : ℚ))) := by
      rw [pow2_eq, pow2_eq]
      exact zpow_le_zpow_right₀ (by norm_num) (by omega)
    have hp53 : ((2 ^ 53 : ℤ) : ℚ) = pow2 53 := by
      rw [pow2_eq]
      norm_num
    have hcast : ((2 ^ 53 : ℤ) : ℚ) ≤ (n : ℚ) := by
      rw [hp53]
      exact le_trans hmono l
    have : (2 ^ 53 : ℤ) ≤ n := by exact_mod_cast hcast
    omega
  simp only [roundDoublePos]
  set e : ℤ := ratIlog2 ((n : ℚ)) - 52 with he
  have hee : 0 ≤ -e := by omega
  have hr : (n : ℚ) * (2 : ℚ) ^ (-e) = ((n * 2 ^ (-e).toNat : ℤ) : ℚ) := by
    push_cast
    rw [← zpow_natCast (2 : ℚ), Int.toNat_of_nonneg hee]
  rw [qmul_eq, qmul_eq, pow2_eq, pow2_eq, Rat.mkRat_one, hr, roundHalfEvenQ_intCast]
  push_cast
  rw [← zpow_natCast (2 : ℚ) (-e).toNat, Int.toNat_of_nonneg hee, mul_assoc,
    ← zpow_add₀ h2]
  norm_num

theorem intToDouble_eq {n : ℤ} (h0 : 0 ≤ n) (h1 : n < 2 ^ 53) :
    intToDouble n = (n : ℚ) := by
  rw [intToDouble, Rat.mkRat_one]
  rcases h0.eq_or_lt with heq | hpos
  · rw [← heq]
    rw [show ((0 : ℤ) : ℚ) = 0 from rfl, roundDouble_zero]
  · exact roundDouble_intCast hpos h1

/-! ### The overall score stays in [0, 100] for in-range integer sub-scores -/

theorem c04_nonneg : 0 ≤ c04 := by
  rw [c04, Rat.mkRat_eq_div]
  positivity

theorem c02_nonneg : 0 ≤ c02 := by
  rw [c02, Rat.mkRat_eq_div]
  positivity

theorem c04_le : c04 ≤ 401 / 1000 := by
  rw [c04, Rat.mkRat_eq_div]
  norm_num

theorem c02_le : c02 ≤ 201 / 1000 := by
  rw [c02, Rat.mkRat_eq_div]
  norm_num

theorem roundDouble_le_of_le {q B : ℚ} (h0 : 0 ≤ q) (hB : q ≤ B) :
    roundDouble q ≤ B * (1 + 1 / 2 ^ 53) := by
  have h := (roundDouble_bounds h0).2
  nlinarith

theorem overallOf_int_range {d s i : ℤ}
    (hd0 : 0 ≤ d) (hd1 : d ≤ 100) (hs0 : 0 ≤ s) (hs1 : s ≤ 100)
    (hi0 : 0 ≤ i) (hi1 : i ≤ 100) :
    0 ≤ overallOf (intToDouble d) (intToDouble s) (intToDouble i) ∧
      overallOf (intToDouble d) (intToDouble s) (intToDouble i) ≤ 100 := by
  rw [intToDouble_eq hd0 (by omega), intToDouble_eq hs0 (by omega),
    intToDouble_eq hi0 (by omega)]
  rw [overallOf, fmul, fmul, fmul, fadd, fadd, qmul_eq, qmul_eq, qmul_eq,
    qadd_eq, qadd_eq]
  have hdq0 : (0 : ℚ) ≤ (d : ℚ) := by exact_mod_cast hd0
  have hdq1 : (d : ℚ) ≤ 100 := by exact_mod_cast hd1
  have hsq0 : (0 : ℚ) ≤ (s : ℚ) := by exact_mod_cast hs0
  have hsq1 : (s : ℚ) ≤ 100 := by exact_mod_cast hs1
  have hiq0 : (0 : ℚ) ≤ (i : ℚ) := by exact_mod_cast hi0
  have hiq1 : (i : ℚ) ≤ 100 := by exact_mod_cast hi1
  have hd04 : (0 : ℚ) ≤ (d : ℚ) * c04 := mul_nonneg hdq0 c04_nonneg
  have hs04 : (0 : ℚ) ≤ (s : ℚ) * c04 := mul_nonneg hsq0 c04_nonneg
  have hi02 : (0 : ℚ) ≤ (i : ℚ) * c02 := mul_nonneg hiq0 c02_nonneg
  have hd04u : (d : ℚ) * c04 ≤ 401 / 10 := by nlinarith [c04_le, c04_nonneg]
  have hs04u : (s : ℚ) * c04 ≤ 401 / 10 := by nlinarith [c04_le, c04_nonneg]
  have hi02u : (i : ℚ) * c02 ≤ 201 / 10 := by nlinarith [c02_le, c02_nonneg]
  have hx0 : (0 : ℚ) ≤ roundDouble ((d : ℚ) * c04) := roundDouble_nonneg hd04
  have hy0 : (0 : ℚ) ≤ roundDouble ((s : ℚ) * c04) := roundDouble_nonneg hs04
  have hz0 : (0 : ℚ) ≤ roundDouble ((i : ℚ) * c02) := roundDouble_nonneg hi02
  have hxu : roundDouble ((d : ℚ) * c04) ≤ 402 / 10 := by
    have := roundDouble_le_of_le hd04 hd04u
    nlinarith
  have hyu : roundDouble ((s : ℚ) * c04) ≤ 402 / 10 := by
    have := roundDouble_le_of_le hs04 hs04u
    nlinarith
  have hzu : roundDouble ((i : ℚ) * c02) ≤ 202 / 10 := by
    have := roundDouble_le_of_le hi02 hi02u
    nlinarith
  have hxy0 : (0 : ℚ) ≤ roundDouble ((d : ℚ) * c04) + roundDouble ((s : ℚ) * c04) := by
    linarith
  have hs10 : (0 : ℚ) ≤
      roundDouble (roundDouble ((d : ℚ) * c04) + roundDouble ((s : ℚ) * c04)) :=
    roundDouble_nonneg hxy0
  have hs1u : roundDouble (roundDouble ((d : ℚ) * c04) + roundDouble ((s : ℚ) * c04)) ≤
      805 / 10 := by
    have := roundDouble_le_of_le hxy0 (by linarith :
      roundDouble ((d : ℚ) * c04) + roundDouble ((s : ℚ) * c04) ≤ 804 / 10)
    nlinarith
  have htot0 : (0 : ℚ) ≤
      roundDouble (roundDouble ((d : ℚ) * c04) + roundDouble ((s : ℚ) * c04)) +
        roundDouble ((i : ℚ) * c02) := by linarith
  have htotu : roundDouble (roundDouble ((d : ℚ) * c04) + roundDouble ((s : ℚ) * c04)) +
      roundDouble ((i : ℚ) * c02) ≤ 1007 / 10 := by linarith
  have hfin0 : (0 : ℚ) ≤
      roundDouble (roundDouble (roundDouble ((d : ℚ) * c04) +
        roundDouble ((s : ℚ) * c04)) + roundDouble ((i : ℚ) * c02)) :=
    roundDouble_nonneg htot0
  have hfinu : roundDouble (roundDouble (roundDouble ((d : ℚ) * c04) +
      roundDouble ((s : ℚ) * c04)) + roundDouble ((i : ℚ) * c02)) ≤ 1008 / 10 := by
    have := roundDouble_le_of_le htot0 htotu
    nlinarith
  constructor
  · exact pyInt_nonneg hfin0
  · exact pyInt_le_of_lt hfin0 (by push_cast; linarith)

/-! ### Small structural facts about the judge client and the loader -/

theorem pyRFind_succ_ne_neg_one (cs : List Char) (c : Char) :
    pyRFind cs c + 1 ≠ -1 := by
  have h : -1 ≤ pyRFind cs c := by
    rw [pyRFind]
    cases hfi : cs.reverse.findIdx? (fun x => x = c) with
    | none => norm_num
    | some i => exact le_trans (by norm_num) (Int.natCast_nonneg _)
  omega

theorem evaluate_with_agent_ok (model now : String)
    (oracle : String → String → Except String String)
    (agent : String → String) (agent_name : String) (f : Fixture)
    (hp : f.problem_md.isSome) (hs : f.solution_md.isSome) :
    evaluate_with_agent model now oracle agent agent_name f =
      .ok (evalOne model now oracle agent agent_name f) := by
  obtain ⟨pmd, hpmd⟩ := Option.isSome_iff_exists.mp hp
  obtain ⟨smd, hsmd⟩ := Option.isSome_iff_exists.mp hs
  rw [evaluate_with_agent, Problem.load, hpmd, hsmd, evalOne, hpmd, hsmd]
  rfl

/-! ### Reduction lemmas for the three paths of `parse_judge_response` -/

theorem parse_judge_response_noBrace (model now : String) (p : Problem)
    (agent_solution agent_name reply : String)
    (hfind : pyFind reply.data lbrace = -1) :
    parse_judge_response model now p agent_solution agent_name reply =
      parseFallback model now p agent_solution agent_name reply
        "No JSON found in judge response" := by
  simp only [parse_judge_response]
  rw [if_neg]
  intro hcon
  exact absurd hfind hcon.1

theorem parse_judge_response_decodeFail (model now : String) (p : Problem)
    (agent_solution agent_name reply : String)
    (hfind : pyFind reply.data lbrace ≠ -1)
    (hj : json_loads (pySlice reply.data (pyFind reply.data lbrace)
      (pyRFind reply.data rbrace + 1)) = none) :
    parse_judge_response model now p agent_solution agent_name reply =
      parseFallback model now p agent_solution agent_name reply
        "Expecting value" := by
  simp only [parse_judge_response]
  rw [if_pos ⟨hfind, pyRFind_succ_ne_neg_one _ _⟩]
  simp only [hj]

theorem parse_judge_response_nonObj (model now : String) (p : Problem)
    (agent_solution agent_name reply : String) (v : Jval)
    (hfind : pyFind reply.data lbrace ≠ -1)
    (hj : json_loads (pySlice reply.data (pyFind reply.data lbrace)
      (pyRFind reply.data rbrace + 1)) = some v)
    (hv : ∀ fields, v ≠ .jobj fields) :
    parse_judge_response model now p agent_solution agent_name reply =
      parseFallback model now p agent_solution agent_name reply
        "judge response is not a JSON object" := by
  have hcond : pyFind reply.data lbrace ≠ -1 ∧ pyRFind reply.data rbrace + 1 ≠ -1 :=
    ⟨hfind, pyRFind_succ_ne_neg_one _ _⟩
  cases v with
  | jobj fields => exact absurd rfl (hv fields)
  | jnull =>
    simp only [parse_judge_response]
    rw [if_pos hcond]
    simp only [hj]
  | jbool b =>
    simp only [parse_judge_response]
    rw [if_pos hcond]
    simp only [hj]
  | jint n =>
    simp only [parse_judge_response]
    rw [if_pos hcond]
    simp only [hj]
  | jfloat q =>
    simp only [parse_judge_response]
    rw [if_pos hcond]
    simp only [hj]
  | jstr s =>
    simp only [parse_judge_response]
    rw [if_pos hcond]
    simp only [hj]
  | jarr xs =>
    simp only [parse_judge_response]
    rw [if_pos hcond]
    simp only [hj]

theorem parse_judge_response_obj (model now : String) (p : Problem)
    (agent_solution agent_name reply : String)
    (fields : List (String × Jval)) (dv sv iv : ℚ)
    (hfind : pyFind reply.data lbrace ≠ -1)
    (hj : json_loads (pySlice reply.data (pyFind reply.data lbrace)
      (pyRFind reply.data rbrace + 1)) = some (.jobj fields))
    (hdv : pyNumVal (jgetD fields "diagnosis_accuracy" (.jint 0)) = some dv)
    (hsv : pyNumVal (jgetD fields "solution_correctness" (.jint 0)) = some sv)
    (hiv : pyNumVal (jgetD fields "investigation_quality" (.jint 0)) = some iv) :
    parse_judge_response model now p agent_solution agent_name reply =
      { problem_name := p.name
        agent_name := agent_name
        timestamp := now
        diagnosis_accuracy := pyIntOf (jgetD fields "diagnosis_accuracy" (.jint 0))
        solution_correctness := pyIntOf (jgetD fields "solution_correctness" (.jint 0))
        investigation_quality := pyIntOf (jgetD fields "investigation_quality" (.jint 0))
        overall_score := overallOf dv sv iv
        agent_solution := agent_solution
        expected_solution := p.solution_md
        judge_feedback := jvalShallowStr (jgetD fields "feedback" (.jstr "No feedback provided"))
        judge_reasoning := jvalShallowStr (jgetD fields "reasoning" (.jstr "No reasoning provided"))
        judge_model := model } := by
  simp only [parse_judge_response]
  rw [if_pos ⟨hfind, pyRFind_succ_ne_neg_one _ _⟩]
  simp only [hj, hdv, hsv, hiv]

/-! ### The claims -/

/-- C2: if the oracle call raises, `evaluate_solution` does not propagate the
exception and returns the all-zero result whose feedback describes the error,
whose reasoning is empty, and whose agent/expected solution fields are
populated. -/
theorem claim_C2 (model now : String)
    (oracle : String → String → Except String String)
    (p : Problem) (agent_solution agent_name e : String)
    (h : oracle get_judge_system_prompt (create_judge_prompt p agent_solution) =
      .error e) :
    evaluate_solution model now oracle p agent_solution agent_name =
      { problem_name := p.name
        agent_name := agent_name
        timestamp := now
        diagnosis_accuracy := 0
        solution_correctness := 0
        investigation_quality := 0
        overall_score := 0
        agent_solution := agent_solution
        expected_solution := p.solution_md
        judge_feedback := "Error during evaluation: " ++ e
        judge_reasoning := ""
        judge_model := model } := by
  simp only [evaluate_solution]
  rw [h]

/-- Closed instance of C2 at a concrete raising oracle. -/
theorem claim_C2_witness :
    errOracle get_judge_system_prompt (create_judge_prompt exampleProblem "sol") =
      .error "ConnectionError" ∧
    evaluate_solution "gpt-4" "t0" errOracle exampleProblem "sol" "agent" =
      { problem_name := "p1"
        agent_name := "agent"
        timestamp := "t0"
        diagnosis_accuracy := 0
        solution_correctness := 0
        investigation_quality := 0
        overall_score := 0
        agent_solution := "sol"
        expected_solution := "S"
        judge_feedback := "Error during evaluation: " ++ "ConnectionError"
        judge_reasoning := ""
        judge_model := "gpt-4" } :=
  ⟨rfl, claim_C2 "gpt-4" "t0" errOracle exampleProblem "sol" "agent"
    "ConnectionError" rfl⟩

/-- C5: `Problem.load` fails exactly when `problem.md` or `solution.md` is
absent; with both present it succeeds regardless of auxiliary artifacts, and
an absent `logs/` or `configs/` directory yields an empty mapping. -/
theorem claim_C5 (f : Fixture) :
    ((Problem.load f).isOk = false ↔
      (f.problem_md = none ∨ f.solution_md = none)) ∧
    (∀ pmd smd, f.problem_md = some pmd → f.solution_md = some smd →
      Problem.load f = .ok
        { name := f.name, problem_md := pmd, solution_md := smd,
          logs := f.logs_dir.getD [], configs := f.configs_dir.getD [] }) ∧
    (∀ p, Problem.load f = .ok p →
      (f.logs_dir = none → p.logs = []) ∧ (f.configs_dir = none → p.configs = [])) := by
  refine ⟨?_, ?_, ?_⟩
  · cases hp : f.problem_md with
    | none => simp [Problem.load, hp, Except.isOk, Except.toBool]
    | some pmd =>
      cases hs : f.solution_md with
      | none => simp [Problem.load, hp, hs, Except.isOk, Except.toBool]
      | some smd => simp [Problem.load, hp, hs, Except.isOk, Except.toBool]
  · intro pmd smd hp hs
    rw [Problem.load, hp, hs]
  · intro p hp
    cases hpm : f.problem_md with
    | none => rw [Problem.load, hpm] at hp; exact absurd hp (by simp)
    | some pmd =>
      cases hsm : f.solution_md with
      | none => rw [Problem.load, hpm, hsm] at hp; exact absurd hp (by simp)
      | some smd =>
        rw [Problem.load, hpm, hsm] at hp
        injection hp with hp
        constructor
        · intro hl
          rw [← hp]
          simp [hl]
        · intro hc
          rw [← hp]
          simp [hc]

/-- Closed instance of C5: a complete fixture loads, a fixture missing
`problem.md` errors, and absent auxiliary directories give empty mappings. -/
theorem claim_C5_witness :
    Problem.load fixtureA = .ok
      { name := "a", problem_md := "PA", solution_md := "SA",
        logs := [], configs := [] } ∧
    (Problem.load fixtureB).isOk = false :=
  ⟨(claim_C5 fixtureA).2.1 "PA" "SA" rfl rfl,
   (claim_C5 fixtureB).1.mpr (Or.inl rfl)⟩

/-- C9 counterexample: a fixture whose required documents are empty files
loads successfully into a `Problem` whose statement text is the empty
string, so the loader does not enforce non-emptiness. -/
theorem claim_C9_counterexample :
    Problem.load emptyDocsFixture = .ok
      { name := "empty", problem_md := "", solution_md := "",
        logs := [], configs := [] } ∧
    ("" : String).length = 0 :=
  ⟨rfl, rfl⟩

/-- C9 (amended): every `Problem` produced by the loader carries exactly the
fixture's file texts as its statement and reference solution — these may be
empty, since the loader performs no emptiness check. -/
theorem claim_C9_amended (f : Fixture) (p : Problem)
    (h : Problem.load f = .ok p) :
    f.problem_md = some p.problem_md ∧ f.solution_md = some p.solution_md := by
  cases hpm : f.problem_md with
  | none => rw [Problem.load, hpm] at h; exact absurd h (by simp)
  | some pmd =>
    cases hsm : f.solution_md with
    | none => rw [Problem.load, hpm, hsm] at h; exact absurd h (by simp)
    | some smd =>
      rw [Problem.load, hpm, hsm] at h
      injection h with h
      rw [← h]
      exact ⟨rfl, rfl⟩

/-- Closed instance of C9 (amended) at the empty-documents fixture. -/
theorem claim_C9_amended_witness :
    emptyDocsFixture.problem_md = some "" ∧
    emptyDocsFixture.solution_md = some "" :=
  claim_C9_amended emptyDocsFixture
    { name := "empty", problem_md := "", solution_md := "",
      logs := [], configs := [] } rfl

/-- C6: the batch runs the single-problem path on exactly the directory
entries that are directories containing `problem.md`, in listing order,
collecting one result per such fixture; entries without `problem.md` are
skipped silently.  (The hypothesis states that every selected fixture also
carries its `solution.md`, since the single-problem path re-reads both
required documents.) -/
theorem claim_C6 (model now : String)
    (oracle : String → String → Except String String)
    (agent : String → String) (agent_name : String) (entries : List DirEntry)
    (h : ∀ en ∈ entries, en.isDir → en.fixture.problem_md.isSome →
      en.fixture.solution_md.isSome) :
    evaluate_all_problems model now oracle agent agent_name entries =
      .ok ((entries.filter fun en => en.isDir && en.fixture.problem_md.isSome).map
        fun en => evalOne model now oracle agent agent_name en.fixture) := by
  induction entries with
  | nil => rfl
  | cons en rest ih =>
    have hrest := ih fun x hx => h x (List.mem_cons_of_mem _ hx)
    rw [evaluate_all_problems]
    by_cases hc : en.isDir ∧ en.fixture.problem_md.isSome
    · rw [if_pos hc]
      rw [evaluate_with_agent_ok model now oracle agent agent_name en.fixture hc.2
        (h en (List.mem_cons_self _ _) hc.1 hc.2)]
      rw [hrest, List.filter_cons]
      have hb : (en.isDir && en.fixture.problem_md.isSome) = true := by
        simp [hc.1, hc.2]
      rw [if_pos hb, List.map_cons]
    · rw [if_neg hc, hrest, List.filter_cons]
      have hb : (en.isDir && en.fixture.problem_md.isSome) = false := by
        cases hd : en.isDir <;> cases hps : en.fixture.problem_md.isSome <;> simp_all
      rw [hb]
      simp

/-- Closed instance of C6: a batch over three fixture directories, one
missing `problem.md`, evaluates exactly the other two in order. -/
theorem claim_C6_witness :
    (∀ en ∈ exampleEntries, en.isDir → en.fixture.problem_md.isSome →
      en.fixture.solution_md.isSome) ∧
    evaluate_all_problems "gpt-4" "t0" errOracle constAgent "agent" exampleEntries =
      .ok ((exampleEntries.filter fun en =>
          en.isDir && en.fixture.problem_md.isSome).map
        fun en => evalOne "gpt-4" "t0" errOracle constAgent "agent" en.fixture) :=
  ⟨by decide, claim_C6 "gpt-4" "t0" errOracle constAgent "agent" exampleEntries
    (by decide)⟩

/-- C3: on every oracle reply whose brace span is missing or whose span does
not decode to a JSON object, the judge client returns the neutral 50/50/50
result with overall 50, a parse-error feedback string, and the full raw reply
as its reasoning; no exception reaches the caller (the function is total). -/
theorem claim_C3 (model now : String) (p : Problem)
    (agent_solution agent_name reply : String)
    (h : pyFind reply.data lbrace = -1 ∨
      ∀ fields, json_loads (judgeSpan reply.data) ≠ some (.jobj fields)) :
    (parse_judge_response model now p agent_solution agent_name reply).diagnosis_accuracy = 50 ∧
    (parse_judge_response model now p agent_solution agent_name reply).solution_correctness = 50 ∧
    (parse_judge_response model now p agent_solution agent_name reply).investigation_quality = 50 ∧
    (parse_judge_response model now p agent_solution agent_name reply).overall_score = 50 ∧
    (parse_judge_response model now p agent_solution agent_name reply).judge_reasoning = reply ∧
    ∃ m, (parse_judge_response model now p agent_solution agent_name reply).judge_feedback =
      "Failed to parse judge response: " ++ m := by
  by_cases hfind : pyFind reply.data lbrace = -1
  · rw [parse_judge_response_noBrace model now p agent_solution agent_name reply hfind]
    exact ⟨rfl, rfl, rfl, rfl, rfl, ⟨_, rfl⟩⟩
  · have hfail : ∀ fields, json_loads (judgeSpan reply.data) ≠ some (.jobj fields) := by
      rcases h with h1 | h2
      · exact absurd h1 hfind
      · exact h2
    rw [judgeSpan] at hfail
    cases hj : json_loads (pySlice reply.data (pyFind reply.data lbrace)
        (pyRFind reply.data rbrace + 1)) with
    | none =>
      rw [parse_judge_response_decodeFail model now p agent_solution agent_name reply
        hfind hj]
      exact ⟨rfl, rfl, rfl, rfl, rfl, ⟨_, rfl⟩⟩
    | some v =>
      have hv : ∀ fields, v ≠ Jval.jobj fields := by
        intro fields hveq
        exact hfail fields (hveq ▸ hj)
      rw [parse_judge_response_nonObj model now p agent_solution agent_name reply v
        hfind hj hv]
      exact ⟨rfl, rfl, rfl, rfl, rfl, ⟨_, rfl⟩⟩

/-- Closed instance of C3 at the reply `"not json at all"`. -/
theorem claim_C3_witness :
    pyFind ("not json at all" : String).data lbrace = -1 ∧
    ((parse_judge_response "gpt-4" "t0" exampleProblem "sol" "agent"
        "not json at all").diagnosis_accuracy = 50 ∧
      (parse_judge_response "gpt-4" "t0" exampleProblem "sol" "agent"
        "not json at all").solution_correctness = 50 ∧
      (parse_judge_response "gpt-4" "t0" exampleProblem "sol" "agent"
        "not json at all").investigation_quality = 50 ∧
      (parse_judge_response "gpt-4" "t0" exampleProblem "sol" "agent"
        "not json at all").overall_score = 50 ∧
      (parse_judge_response "gpt-4" "t0" exampleProblem "sol" "agent"
        "not json at all").judge_reasoning = "not json at all" ∧
      ∃ m, (parse_judge_response "gpt-4" "t0" exampleProblem "sol" "agent"
        "not json at all").judge_feedback = "Failed to parse judge response: " ++ m) :=
  ⟨by decide, claim_C3 "gpt-4" "t0" exampleProblem "sol" "agent" "not json at all"
    (Or.inl (by decide))⟩

/-- C10: when the span decodes to a JSON object, missing score fields are not
a parse failure: each missing sub-score defaults to 0 (and enters the overall
formula as 0), and missing reasoning/feedback fields default to the
placeholder strings.  (The present score fields are assumed numeric, so the
success path is taken.) -/
theorem claim_C10 (model now : String) (p : Problem)
    (agent_solution agent_name reply : String) (fields : List (String × Jval))
    (hfind : pyFind reply.data lbrace ≠ -1)
    (hobj : json_loads (judgeSpan reply.data) = some (.jobj fields))
    (hd : (pyNumVal (jgetD fields "diagnosis_accuracy" (.jint 0))).isSome)
    (hs : (pyNumVal (jgetD fields "solution_correctness" (.jint 0))).isSome)
    (hi : (pyNumVal (jgetD fields "investigation_quality" (.jint 0))).isSome) :
    (jget fields "diagnosis_accuracy" = none →
      (parse_judge_response model now p agent_solution agent_name reply).diagnosis_accuracy = 0) ∧
    (jget fields "solution_correctness" = none →
      (parse_judge_response model now p agent_solution agent_name reply).solution_correctness = 0) ∧
    (jget fields "investigation_quality" = none →
      (parse_judge_response model now p agent_solution agent_name reply).investigation_quality = 0) ∧
    (jget fields "reasoning" = none →
      (parse_judge_response model now p agent_solution agent_name reply).judge_reasoning =
        "No reasoning provided") ∧
    (jget fields "feedback" = none →
      (parse_judge_response model now p agent_solution agent_name reply).judge_feedback =
        "No feedback provided") ∧
    (jget fields "diagnosis_accuracy" = none → jget fields "solution_correctness" = none →
      jget fields "investigation_quality" = none →
      (parse_judge_response model now p agent_solution agent_name reply).overall_score = 0) := by
  obtain ⟨dv, hdv⟩ := Option.isSome_iff_exists.mp hd
  obtain ⟨sv, hsv⟩ := Option.isSome_iff_exists.mp hs
  obtain ⟨iv, hiv⟩ := Option.isSome_iff_exists.mp hi
  rw [judgeSpan] at hobj
  rw [parse_judge_response_obj model now p agent_solution agent_name reply fields
    dv sv iv hfind hobj hdv hsv hiv]
  refine ⟨?_, ?_, ?_, ?_, ?_, ?_⟩
  · intro hnone
    simp [jgetD, hnone, pyIntOf]
  · intro hnone
    simp [jgetD, hnone, pyIntOf]
  · intro hnone
    simp [jgetD, hnone, pyIntOf]
  · intro hnone
    simp [jgetD, hnone, jvalShallowStr]
  · intro hnone
    simp [jgetD, hnone, jvalShallowStr]
  · intro h1 h2 h3
    rw [jgetD, h1, Option.getD_none] at hdv
    rw [jgetD, h2, Option.getD_none] at hsv
    rw [jgetD, h3, Option.getD_none] at hiv
    have hdv0 : dv = intToDouble 0 := by
      rw [pyNumVal] at hdv
      exact (Option.some_inj.mp hdv).symm
    have hsv0 : sv = intToDouble 0 := by
      rw [pyNumVal] at hsv
      exact (Option.some_inj.mp hsv).symm
    have hiv0 : iv = intToDouble 0 := by
      rw [pyNumVal] at hiv
      exact (Option.some_inj.mp hiv).symm
    rw [hdv0, hsv0, hiv0]
    show overallOf (intToDouble 0) (intToDouble 0) (intToDouble 0) = 0
    decide

/-- Closed instance of C10 at the reply `"{}"`: every field is missing, the
sub-scores default to 0, the texts default to the placeholders. -/
theorem claim_C10_witness :
    (pyFind ("\x7b\x7d" : String).data lbrace ≠ -1 ∧
      json_loads (judgeSpan ("\x7b\x7d" : String).data) = some (Jval.jobj [])) ∧
    ((jget ([] : List (String × Jval)) "diagnosis_accuracy" = none →
      (parse_judge_response "gpt-4" "t0" exampleProblem "sol" "agent"
        "\x7b\x7d").diagnosis_accuracy = 0) ∧
    (jget ([] : List (String × Jval)) "solution_correctness" = none →
      (parse_judge_response "gpt-4" "t0" exampleProblem "sol" "agent"
        "\x7b\x7d").solution_correctness = 0) ∧
    (jget ([] : List (String × Jval)) "investigation_quality" = none →
      (parse_judge_response "gpt-4" "t0" exampleProblem "sol" "agent"
        "\x7b\x7d").investigation_quality = 0) ∧
    (jget ([] : List (String × Jval)) "reasoning" = none →
      (parse_judge_response "gpt-4" "t0" exampleProblem "sol" "agent"
        "\x7b\x7d").judge_reasoning = "No reasoning provided") ∧
    (jget ([] : List (String × Jval)) "feedback" = none →
      (parse_judge_response "gpt-4" "t0" exampleProblem "sol" "agent"
        "\x7b\x7d").judge_feedback = "No feedback provided") ∧
    (jget ([] : List (String × Jval)) "diagnosis_accuracy" = none →
      jget ([] : List (String × Jval)) "solution_correctness" = none →
      jget ([] : List (String × Jval)) "investigation_quality" = none →
      (parse_judge_response "gpt-4" "t0" exampleProblem "sol" "agent"
        "\x7b\x7d").overall_score = 0)) :=
  ⟨⟨by decide, by rfl⟩,
    claim_C10 "gpt-4" "t0" exampleProblem "sol" "agent" "\x7b\x7d" []
      (by decide) (by rfl) (by decide) (by decide) (by decide)⟩

/-- C4: the judge client takes the substring of the reply from the first
brace to the last brace, inclusive, as the payload; in particular the
parse-tolerance test reply with prose around a valid payload yields
sub-scores (80, 70, 90) and overall 78. -/
theorem claim_C4 (reply : String) (i j : ℤ)
    (hi : pyFind reply.data lbrace = i) (_hi0 : 0 ≤ i)
    (hj : pyRFind reply.data rbrace = j) (hj0 : 0 ≤ j) :
    judgeSpan reply.data = (reply.data.drop i.toNat).take (j.toNat + 1 - i.toNat) ∧
    ((parse_judge_response "gpt-4" "t0" exampleProblem "sol" "agent"
        exampleReply).diagnosis_accuracy,
      (parse_judge_response "gpt-4" "t0" exampleProblem "sol" "agent"
        exampleReply).solution_correctness,
      (parse_judge_response "gpt-4" "t0" exampleProblem "sol" "agent"
        exampleReply).investigation_quality,
      (parse_judge_response "gpt-4" "t0" exampleProblem "sol" "agent"
        exampleReply).overall_score) = (80, 70, 90, 78) := by
  constructor
  · rw [judgeSpan, hi, hj, pySlice, List.drop_take]
    congr 1
    omega
  · decide

/-- Closed instance of C4 at the parse-tolerance reply, whose first brace is
at index 19 and last brace at index 131. -/
theorem claim_C4_witness :
    (pyFind exampleReply.data lbrace = 19 ∧ pyRFind exampleReply.data rbrace = 131) ∧
    (judgeSpan exampleReply.data =
      (exampleReply.data.drop (19 : ℤ).toNat).take ((131 : ℤ).toNat + 1 - (19 : ℤ).toNat) ∧
    ((parse_judge_response "gpt-4" "t0" exampleProblem "sol" "agent"
        exampleReply).diagnosis_accuracy,
      (parse_judge_response "gpt-4" "t0" exampleProblem "sol" "agent"
        exampleReply).solution_correctness,
      (parse_judge_response "gpt-4" "t0" exampleProblem "sol" "agent"
        exampleReply).investigation_quality,
      (parse_judge_response "gpt-4" "t0" exampleProblem "sol" "agent"
        exampleReply).overall_score) = (80, 70, 90, 78)) :=
  ⟨⟨by decide, by decide⟩,
    claim_C4 exampleReply 19 131 (by decide) (by decide) (by decide) (by decide)⟩

/-- C1 counterexample: at the well-formed judge reply with integer scores
(1, 43, 2), the produced overall score is 17, while the exact formula
floor(1·0.4 + 43·0.4 + 2·0.2) (truncation toward zero of the exact rational
value 18) gives 18: the code truncates the double-precision sum
17.999999999999996. -/
theorem claim_C1_counterexample :
    ((parse_judge_response "gpt-4" "t0" exampleProblem "sol" "agent"
        floatSlipReply).diagnosis_accuracy,
      (parse_judge_response "gpt-4" "t0" exampleProblem "sol" "agent"
        floatSlipReply).solution_correctness,
      (parse_judge_response "gpt-4" "t0" exampleProblem "sol" "agent"
        floatSlipReply).investigation_quality,
      (parse_judge_response "gpt-4" "t0" exampleProblem "sol" "agent"
        floatSlipReply).overall_score) = (1, 43, 2, 17) ∧
    pyInt ((1 : ℚ) * (0.4 : ℚ) + (43 : ℚ) * (0.4 : ℚ) + (2 : ℚ) * (0.2 : ℚ)) = 18 ∧
    (17 : ℤ) ≠ 18 := by
  refine ⟨by decide, ?_, by decide⟩
  rw [show (1 : ℚ) * (0.4 : ℚ) + (43 : ℚ) * (0.4 : ℚ) + (2 : ℚ) * (0.2 : ℚ) =
    ((18 : ℤ) : ℚ) by norm_num]
  exact pyInt_intCast 18

/-- C1 (amended): the overall score is the truncation toward zero of the
binary64 evaluation of `diagnosis*0.4 + solution*0.4 + investigation*0.2`
(`overallOf`); on the transport-failure and parse-failure paths this
coincides with the exact weighted-floor formula applied to the stored
sub-scores (giving 0 resp. 50), while on the success path the double rounding
can land one below the exact floor. -/
theorem claim_C1_amended (model now : String) (p : Problem)
    (agent_solution agent_name : String) (res : Except String String) :
    (∀ e, res = .error e →
      (evaluate_solution model now (fun _ _ => res) p agent_solution
          agent_name).overall_score =
        pyInt (((evaluate_solution model now (fun _ _ => res) p agent_solution
            agent_name).diagnosis_accuracy : ℚ) * (0.4 : ℚ) +
          ((evaluate_solution model now (fun _ _ => res) p agent_solution
            agent_name).solution_correctness : ℚ) * (0.4 : ℚ) +
          ((evaluate_solution model now (fun _ _ => res) p agent_solution
            agent_name).investigation_quality : ℚ) * (0.2 : ℚ))) ∧
    (∀ reply, res = .ok reply →
      (pyFind reply.data lbrace = -1 ∨
        ∀ fields, json_loads (judgeSpan reply.data) ≠ some (.jobj fields)) →
      (evaluate_solution model now (fun _ _ => res) p agent_solution
          agent_name).overall_score =
        pyInt (((evaluate_solution model now (fun _ _ => res) p agent_solution
            agent_name).diagnosis_accuracy : ℚ) * (0.4 : ℚ) +
          ((evaluate_solution model now (fun _ _ => res) p agent_solution
            agent_name).solution_correctness : ℚ) * (0.4 : ℚ) +
          ((evaluate_solution model now (fun _ _ => res) p agent_solution
            agent_name).investigation_quality : ℚ) * (0.2 : ℚ))) ∧
    (∀ reply fields dv sv iv, res = .ok reply →
      pyFind reply.data lbrace ≠ -1 →
      json_loads (judgeSpan reply.data) = some (.jobj fields) →
      pyNumVal (jgetD fields "diagnosis_accuracy" (.jint 0)) = some dv →
      pyNumVal (jgetD fields "solution_correctness" (.jint 0)) = some sv →
      pyNumVal (jgetD fields "investigation_quality" (.jint 0)) = some iv →
      (evaluate_solution model now (fun _ _ => res) p agent_solution
          agent_name).overall_score = overallOf dv sv iv) := by
  have h0 : pyInt (((0 : ℤ) : ℚ) * (0.4 : ℚ) + ((0 : ℤ) : ℚ) * (0.4 : ℚ) +
      ((0 : ℤ) : ℚ) * (0.2 : ℚ)) = 0 := by
    rw [show ((0 : ℤ) : ℚ) * (0.4 : ℚ) + ((0 : ℤ) : ℚ) * (0.4 : ℚ) +
      ((0 : ℤ) : ℚ) * (0.2 : ℚ) = ((0 : ℤ) : ℚ) by norm_num]
    exact pyInt_intCast 0
  have h50 : pyInt (((50 : ℤ) : ℚ) * (0.4 : ℚ) + ((50 : ℤ) : ℚ) * (0.4 : ℚ) +
      ((50 : ℤ) : ℚ) * (0.2 : ℚ)) = 50 := by
    rw [show ((50 : ℤ) : ℚ) * (0.4 : ℚ) + ((50 : ℤ) : ℚ) * (0.4 : ℚ) +
      ((50 : ℤ) : ℚ) * (0.2 : ℚ) = ((50 : ℤ) : ℚ) by norm_num]
    exact pyInt_intCast 50
  refine ⟨?_, ?_, ?_⟩
  · intro e he
    subst he
    exact h0.symm
  · intro reply he h
    subst he
    have hred : evaluate_solution model now (fun _ _ => .ok reply) p agent_solution
        agent_name = parse_judge_response model now p agent_solution agent_name
        reply := rfl
    rw [hred]
    by_cases hfind : pyFind reply.data lbrace = -1
    · rw [parse_judge_response_noBrace model now p agent_solution agent_name reply
        hfind]
      exact h50.symm
    · have hfail : ∀ fields, json_loads (judgeSpan reply.data) ≠
          some (.jobj fields) := by
        rcases h with h1 | h2
        · exact absurd h1 hfind
        · exact h2
      rw [judgeSpan] at hfail
      cases hj : json_loads (pySlice reply.data (pyFind reply.data lbrace)
          (pyRFind reply.data rbrace + 1)) with
      | none =>
        rw [parse_judge_response_decodeFail model now p agent_solution agent_name
          reply hfind hj]
        exact h50.symm
      | some v =>
        have hv : ∀ fields, v ≠ Jval.jobj fields := by
          intro fields hveq
          exact hfail fields (hveq ▸ hj)
        rw [parse_judge_response_nonObj model now p agent_solution agent_name reply
          v hfind hj hv]
        exact h50.symm
  · intro reply fields dv sv iv he hfind hobj hdv hsv hiv
    subst he
    have hred : evaluate_solution model now (fun _ _ => .ok reply) p agent_solution
        agent_name = parse_judge_response model now p agent_solution agent_name
        reply := rfl
    rw [hred, judgeSpan] at *
    rw [parse_judge_response_obj model now p agent_solution agent_name reply fields
      dv sv iv hfind hobj hdv hsv hiv]

/-- Closed instance of C1 (amended) on the transport-failure path. -/
theorem claim_C1_amended_witness :
    (evaluate_solution "gpt-4" "t0" (fun _ _ => .error "boom") exampleProblem
        "sol" "agent").overall_score =
      pyInt (((evaluate_solution "gpt-4" "t0" (fun _ _ => .error "boom")
          exampleProblem "sol" "agent").diagnosis_accuracy : ℚ) * (0.4 : ℚ) +
        ((evaluate_solution "gpt-4" "t0" (fun _ _ => .error "boom")
          exampleProblem "sol" "agent").solution_correctness : ℚ) * (0.4 : ℚ) +
        ((evaluate_solution "gpt-4" "t0" (fun _ _ => .error "boom")
          exampleProblem "sol" "agent").investigation_quality : ℚ) * (0.2 : ℚ)) :=
  (claim_C1_amended "gpt-4" "t0" exampleProblem "sol" "agent"
    (.error "boom")).1 "boom" rfl

/-- C8 counterexample: a well-formed reply with `diagnosis_accuracy` 1000 is
stored unclamped, so the produced result violates the [0, 100] range
invariant. -/
theorem claim_C8_counterexample :
    (parse_judge_response "gpt-4" "t0" exampleProblem "sol" "agent"
      outOfRangeReply).diagnosis_accuracy = 1000 ∧
    ¬((parse_judge_response "gpt-4" "t0" exampleProblem "sol" "agent"
      outOfRangeReply).diagnosis_accuracy ≤ 100) := by
  have h : (parse_judge_response "gpt-4" "t0" exampleProblem "sol" "agent"
      outOfRangeReply).diagnosis_accuracy = 1000 := by decide
  refine ⟨h, ?_⟩
  rw [h]
  decide

/-- C8 (amended): sub-scores are stored unclamped, so the [0, 100] invariant
is not guaranteed for arbitrary oracle replies; it does hold on both fallback
paths, and on the success path whenever the judge's integer fields (or their
defaults) lie in [0, 100], where the derived overall score is then also an
integer in [0, 100]. -/
theorem claim_C8_amended (model now : String) (p : Problem)
    (agent_solution agent_name : String) (res : Except String String) :
    (∀ e, res = .error e →
      InRange (evaluate_solution model now (fun _ _ => res) p agent_solution
        agent_name)) ∧
    (∀ reply, res = .ok reply →
      (pyFind reply.data lbrace = -1 ∨
        ∀ fields, json_loads (judgeSpan reply.data) ≠ some (.jobj fields)) →
      InRange (evaluate_solution model now (fun _ _ => res) p agent_solution
        agent_name)) ∧
    (∀ reply fields d s i, res = .ok reply →
      pyFind reply.data lbrace ≠ -1 →
      json_loads (judgeSpan reply.data) = some (.jobj fields) →
      jgetD fields "diagnosis_accuracy" (.jint 0) = .jint d → 0 ≤ d → d ≤ 100 →
      jgetD fields "solution_correctness" (.jint 0) = .jint s → 0 ≤ s → s ≤ 100 →
      jgetD fields "investigation_quality" (.jint 0) = .jint i → 0 ≤ i → i ≤ 100 →
      InRange (evaluate_solution model now (fun _ _ => res) p agent_solution
        agent_name)) := by
  refine ⟨?_, ?_, ?_⟩
  · intro e he
    subst he
    norm_num [InRange, evaluate_solution]
  · intro reply he h
    subst he
    have hred : evaluate_solution model now (fun _ _ => .ok reply) p agent_solution
        agent_name = parse_judge_response model now p agent_solution agent_name
        reply := rfl
    rw [InRange, hred]
    by_cases hfind : pyFind reply.data lbrace = -1
    · rw [parse_judge_response_noBrace model now p agent_solution agent_name reply
        hfind]
      norm_num [parseFallback]
    · have hfail : ∀ fields, json_loads (judgeSpan reply.data) ≠
          some (.jobj fields) := by
        rcases h with h1 | h2
        · exact absurd h1 hfind
        · exact h2
      rw [judgeSpan] at hfail
      cases hj : json_loads (pySlice reply.data (pyFind reply.data lbrace)
          (pyRFind reply.data rbrace + 1)) with
      | none =>
        rw [parse_judge_response_decodeFail model now p agent_solution agent_name
          reply hfind hj]
        norm_num [parseFallback]
      | some v =>
        have hv : ∀ fields, v ≠ Jval.jobj fields := by
          intro fields hveq
          exact hfail fields (hveq ▸ hj)
        rw [parse_judge_response_nonObj model now p agent_solution agent_name reply
          v hfind hj hv]
        norm_num [parseFallback]
  · intro reply fields d s i he hfind hobj hd hd0 hd1 hs hs0 hs1 hi hi0 hi1
    subst he
    have hred : evaluate_solution model now (fun _ _ => .ok reply) p agent_solution
        agent_name = parse_judge_response model now p agent_solution agent_name
        reply := rfl
    rw [judgeSpan] at hobj
    have hdv : pyNumVal (jgetD fields "diagnosis_accuracy" (.jint 0)) =
        some (intToDouble d) := by rw [hd]; rfl
    have hsv : pyNumVal (jgetD fields "solution_correctness" (.jint 0)) =
        some (intToDouble s) := by rw [hs]; rfl
    have hiv : pyNumVal (jgetD fields "investigation_quality" (.jint 0)) =
        some (intToDouble i) := by rw [hi]; rfl
    rw [InRange, hred, parse_judge_response_obj model now p agent_solution
      agent_name reply fields (intToDouble d) (intToDouble s) (intToDouble i)
      hfind hobj hdv hsv hiv]
    obtain ⟨ho0, ho1⟩ := overallOf_int_range hd0 hd1 hs0 hs1 hi0 hi1
    rw [hd, hs, hi]
    exact ⟨⟨hd0, hd1⟩, ⟨hs0, hs1⟩, ⟨hi0, hi1⟩, ⟨ho0, ho1⟩⟩

/-- Closed instance of C8 (amended) on the transport-failure path. -/
theorem claim_C8_amended_witness :
    InRange (evaluate_solution "gpt-4" "t0" (fun _ _ => .error "boom")
      exampleProblem "sol" "agent") :=
  (claim_C8_amended "gpt-4" "t0" exampleProblem "sol" "agent"
    (.error "boom")).1 "boom" rfl

/-- C7: on an empty result sequence the report generator still writes the
minimal placeholder document and returns its path; on a non-empty sequence
the summary table carries exactly one row per result and the displayed
average is the formatting of the binary64 mean `sum / N`, which lies within
a relative error of 2⁻⁵³ of the exact arithmetic mean. -/
theorem claim_C7 (results : List EvaluationResult) (ts : String) :
    generate_report [] ts =
      ("reports/eval_report_unknown_" ++ ts ++ ".md", "# No results to report") ∧
    (results ≠ [] →
      (results.map summary_row).length = results.length ∧
      generate_md_report results =
        report_header results ++ String.join (results.map summary_row) ++
          "\n## Detailed Results\n\n" ++ String.join (results.map detail_block) ∧
      (0 ≤ (results.map fun r => r.overall_score).sum →
        (((results.map fun r => r.overall_score).sum : ℚ) / (results.length : ℚ)) -
            (((results.map fun r => r.overall_score).sum : ℚ) / (results.length : ℚ)) *
              (1 / 2 ^ 53) ≤ avg_score results ∧
        avg_score results ≤
          (((results.map fun r => r.overall_score).sum : ℚ) / (results.length : ℚ)) +
            (((results.map fun r => r.overall_score).sum : ℚ) / (results.length : ℚ)) *
              (1 / 2 ^ 53))) := by
  constructor
  · rfl
  · intro hne
    refine ⟨List.length_map _ _, ?_, ?_⟩
    · rw [generate_md_report, if_neg (by simpa [List.isEmpty_iff] using hne)]
    · intro hsum
      have hmean : avg_score results =
          roundDouble (((results.map fun r => r.overall_score).sum : ℚ) /
            (results.length : ℚ)) := by
        rw [avg_score, fdiv, qdiv_eq, Rat.mkRat_one, Rat.mkRat_one]
        congr 1
        push_cast [List.map_map]
        simp only [Function.comp_def]
      have hnonneg : (0 : ℚ) ≤
          ((results.map fun r => r.overall_score).sum : ℚ) / (results.length : ℚ) := by
        apply div_nonneg
        · have h2 : ((0 : ℤ) : ℚ) ≤ (((results.map fun r => r.overall_score).sum : ℤ) : ℚ) :=
            Int.cast_le.mpr hsum
          simpa using h2
        · positivity
      rw [hmean]
      exact roundDouble_bounds hnonneg

/-- Closed instance of C7 on two concrete results with overall scores 78 and
41. -/
theorem claim_C7_witness :
    ([exampleResult, exampleResult2] ≠ []) ∧
    (0 ≤ ([exampleResult, exampleResult2].map fun r => r.overall_score).sum) ∧
    (([exampleResult, exampleResult2].map summary_row).length =
        [exampleResult, exampleResult2].length ∧
      generate_md_report [exampleResult, exampleResult2] =
        report_header [exampleResult, exampleResult2] ++
          String.join ([exampleResult, exampleResult2].map summary_row) ++
          "\n## Detailed Results\n\n" ++
          String.join ([exampleResult, exampleResult2].map detail_block) ∧
      (0 ≤ ([exampleResult, exampleResult2].map fun r => r.overall_score).sum →
        ((([exampleResult, exampleResult2].map fun r => r.overall_score).sum : ℚ) /
            ([exampleResult, exampleResult2].length : ℚ)) -
            ((([exampleResult, exampleResult2].map fun r => r.overall_score).sum : ℚ) /
              ([exampleResult, exampleResult2].length : ℚ)) * (1 / 2 ^ 53) ≤
          avg_score [exampleResult, exampleResult2] ∧
        avg_score [exampleResult, exampleResult2] ≤
          ((([exampleResult, exampleResult2].map fun r => r.overall_score).sum : ℚ) /
            ([exampleResult, exampleResult2].length : ℚ)) +
            ((([exampleResult, exampleResult2].map fun r => r.overall_score).sum : ℚ) /
              ([exampleResult, exampleResult2].length : ℚ)) * (1 / 2 ^ 53))) :=
  ⟨by decide, by decide,
    (claim_C7 [exampleResult, exampleResult2] "t").2 (by decide)⟩

end CloudDebugEval
